import Mathlib

/-!
# Campus Speed Tracker: trip verification functions

A shallow embedding of `speed_tracker/functions/index.js` and the properties proved about it.

Numbers. JavaScript numbers are modelled by exact rationals (`ℚ`); counts and
currency amounts, which the code only ever adds and multiplies by integer
constants, by `Int`. Values that the code can produce outside the rationals
(`NaN`, `±Infinity`) are carried by `JSNum`. A length `Math.sqrt(s) * 111000` is
kept as its radicand `s` (see `Meters`), so that `Math.min` and `<=` on such
lengths stay exact and decidable. The quotients and products of `verifyRoute` and
`verifyDistance` are rounded to binary64 (`roundDouble`), and
`pointToLineDistanceDouble` is `pointToLineDistance` with every operation rounded
to binary64; `pointToLineDistance` itself, used for corridor membership, is the
same formula without rounding. The functions of `Math` called by
`calculateDistance` are a parameter (`JSMath`), with the facts used about them
collected in `JSMath.Standard`.

Records. Firestore documents are modelled by structures holding the fields the
code reads. A route document always carries `approvedRoutes[0]`, and the route
catalog (`routesSnapshot.docs`) is passed in as a list, in iteration order.
-/

namespace SpeedTracker

/-! ## Data model -/

/-- A JavaScript number: a finite value, `NaN`, `Infinity` or `-Infinity`. -/
inductive JSNum where
  | num (q : ℚ)
  | nan
  | posInf
  | negInf
  deriving DecidableEq, Repr

/-- A numeric literal read as a JavaScript number. -/
instance (n : Nat) : OfNat JSNum n := ⟨JSNum.num (n : ℚ)⟩

/-- The object returned by `verifyRoute`. -/
structure RouteCheck where
  passed : Bool
  insideRatio : JSNum
  pointsInside : Nat
  totalPoints : Nat
  bufferUsed : ℚ
  deriving DecidableEq, Repr

/-- The object returned by `verifyDistance`. -/
structure DistanceCheck where
  passed : Bool
  ratio : JSNum
  traveledDistance : ℚ
  expectedDistance : ℚ
  minAllowed : JSNum
  maxAllowed : JSNum
  deriving DecidableEq, Repr

/-- One entry of the `violations` array built by `calculatePenalty`. -/
inductive Violation where
  | speed (count : Int) (penalty : Int)
  | serious_speeding (maxSpeed : ℚ) (penalty : Int)
  | route_deviation (insideRatio : JSNum) (penalty : Int)
  deriving DecidableEq, Repr

/-- The `type` field of a violation entry. -/
def Violation.type : Violation → String
  | .speed _ _ => "speed"
  | .serious_speeding _ _ => "serious_speeding"
  | .route_deviation _ _ => "route_deviation"

/-- The `penalty` field of a violation entry. -/
def Violation.penalty : Violation → Int
  | .speed _ p => p
  | .serious_speeding _ p => p
  | .route_deviation _ p => p

/-- The object returned by `calculatePenalty`. -/
structure Penalty where
  totalPenalty : Int
  violations : List Violation
  deriving DecidableEq, Repr

/-- The three verdict strings `'approved'`, `'warning'`, `'denied'`. -/
inductive VerdictLabel where
  | approved
  | warning
  | denied
  deriving DecidableEq, Repr

/-- The object returned by `determineVerdict`. -/
structure Verdict where
  verdict : VerdictLabel
  score : Int
  message : String
  deriving DecidableEq, Repr

/-! ## calculatePenalty -/

/-- The state of `calculatePenalty`: the running `penalty` and the `violations` array. -/
abbrev PenaltyAcc := Int × List Violation

/-- Speed violations: `if (violationsCount > 0)`, 50 per violation. -/
def penaltySpeedStep (violationsCount : Int) (acc : PenaltyAcc) : PenaltyAcc :=
  if violationsCount > 0 then
    let speedPenalty := violationsCount * 50
    (acc.1 + speedPenalty, acc.2 ++ [Violation.speed violationsCount speedPenalty])
  else acc

/-- Serious speeding: `if (maxSpeed > 35)`, a flat 200. -/
def penaltySeriousStep (maxSpeed : ℚ) (acc : PenaltyAcc) : PenaltyAcc :=
  if maxSpeed > 35 then
    let seriousPenalty := 200
    (acc.1 + seriousPenalty, acc.2 ++ [Violation.serious_speeding maxSpeed seriousPenalty])
  else acc

/-- Route deviation: `if (routeViolations && !routeViolations.passed)`, a flat 100.
A null or undefined `routeViolations` is `none`. -/
def penaltyRouteStep (routeViolations : Option RouteCheck) (acc : PenaltyAcc) : PenaltyAcc :=
  match routeViolations with
  | some rc =>
    if !rc.passed then
      let routePenalty := 100
      (acc.1 + routePenalty, acc.2 ++ [Violation.route_deviation rc.insideRatio routePenalty])
    else acc
  | none => acc

/-- The function `calculatePenalty(violationsCount, maxSpeed, speedLimit, routeViolations)`.
The parameter `speedLimit` is not read by the code. -/
def calculatePenalty (violationsCount : Int) (maxSpeed : ℚ) (speedLimit : ℚ)
    (routeViolations : Option RouteCheck) : Penalty :=
  let _ := speedLimit
  let acc : PenaltyAcc := (0, [])
  let acc := penaltySpeedStep violationsCount acc
  let acc := penaltySeriousStep maxSpeed acc
  let acc := penaltyRouteStep routeViolations acc
  { totalPenalty := acc.1, violations := acc.2 }

/-! ## determineVerdict -/

/-- The function `getVerdictMessage(verdict, score)`. -/
def getVerdictMessage (verdict : VerdictLabel) (score : Int) : String :=
  match verdict with
  | .approved => "✅ Clean trip (Score: " ++ toString score ++ "/100)"
  | .warning => "⚠️ Minor violations detected (Score: " ++ toString score ++ "/100)"
  | .denied => "❌ Serious violations - Entry denied (Score: " ++ toString score ++ "/100)"

/-- The state of `determineVerdict`: the variables `verdict` and `score`. -/
abbrev VerdictAcc := VerdictLabel × Int

/-- Route violation: `if (!routeCheck.passed)`, 30 points off and a warning. -/
def verdictRouteStep (routePassed : Bool) (s : VerdictAcc) : VerdictAcc :=
  if !routePassed then (VerdictLabel.warning, s.2 - 30) else s

/-- Distance violation: `if (!distanceCheck.passed)`, 20 points off and a warning. -/
def verdictDistanceStep (distancePassed : Bool) (s : VerdictAcc) : VerdictAcc :=
  if !distancePassed then (VerdictLabel.warning, s.2 - 20) else s

/-- Penalty-based deduction: over 200 costs 30 points and denies, over 100 costs 20 and warns. -/
def verdictPenaltyStep (totalPenalty : Int) (s : VerdictAcc) : VerdictAcc :=
  if totalPenalty > 200 then (VerdictLabel.denied, s.2 - 30)
  else if totalPenalty > 100 then (VerdictLabel.warning, s.2 - 20)
  else s

/-- Final verdict: the score bands `score < 50` and `score < 70`. -/
def verdictFinalStep (s : VerdictAcc) : VerdictAcc :=
  if s.2 < 50 then (VerdictLabel.denied, s.2)
  else if s.2 < 70 then (VerdictLabel.warning, s.2)
  else s

/-- The variables `verdict` and `score` of `determineVerdict` after the penalty-based
deduction, before the final score bands are applied. -/
def verdictBeforeFinal (routeCheck : RouteCheck) (distanceCheck : DistanceCheck)
    (penalty : Penalty) : VerdictAcc :=
  let s : VerdictAcc := (VerdictLabel.approved, 100)
  let s := verdictRouteStep routeCheck.passed s
  let s := verdictDistanceStep distanceCheck.passed s
  verdictPenaltyStep penalty.totalPenalty s

/-- The function `determineVerdict(routeCheck, distanceCheck, penalty)`. -/
def determineVerdict (routeCheck : RouteCheck) (distanceCheck : DistanceCheck)
    (penalty : Penalty) : Verdict :=
  let s := verdictFinalStep (verdictBeforeFinal routeCheck distanceCheck penalty)
  { verdict := s.1, score := s.2, message := getVerdictMessage s.1 s.2 }

/-! ## Geometry -/

/-- A point of a route polyline. The code accepts the array format `[lat, lon]` and the
object format `{lat, lon}`; both are read into the same two numbers. -/
structure PolyPoint where
  lat : ℚ
  lon : ℚ
  deriving DecidableEq, Repr

/-- The object `{ latitude, longitude }` handed to `isPointInCorridor`. A coordinate that
is `undefined` is `none`. -/
structure GeoPoint where
  latitude : Option ℚ
  longitude : Option ℚ
  deriving DecidableEq, Repr

/-- A length `Math.sqrt(radicand) * 111000`, in metres, kept as its radicand (a sum of two
squares, in squared coordinate degrees). -/
structure Meters where
  radicand : ℚ
  deriving DecidableEq, Repr

/-- The factor 111000 that converts coordinate degrees to metres. -/
def degreeToMeters : ℚ := 111000

/-- The comparison `m <= bufferMeters` for `m = Math.sqrt(radicand) * 111000`: the buffer is
not negative and the squares compare. -/
def Meters.leBuffer (m : Meters) (bufferMeters : ℚ) : Bool :=
  decide (0 ≤ bufferMeters) && decide (m.radicand * degreeToMeters ^ 2 ≤ bufferMeters ^ 2)

/-- The function `pointToLineDistance(px, py, x1, y1, x2, y2)`. -/
def pointToLineDistance (px py x1 y1 x2 y2 : ℚ) : Meters :=
  let A := px - x1
  let B := py - y1
  let C := x2 - x1
  let D := y2 - y1
  let dot := A * C + B * D
  let lenSq := C * C + D * D
  let param : ℚ := if lenSq ≠ 0 then dot / lenSq else -1
  let xx : ℚ := if param < 0 then x1 else if param > 1 then x2 else x1 + param * C
  let yy : ℚ := if param < 0 then y1 else if param > 1 then y2 else y1 + param * D
  let dx := px - xx
  let dy := py - yy
  { radicand := dx * dx + dy * dy }

/-- The update `minDistance = Math.min(minDistance, distance)`; `none` is the initial
`Infinity`. -/
def minMeters (minDistance : Option Meters) (distance : Meters) : Option Meters :=
  match minDistance with
  | none => some distance
  | some m => if distance.radicand < m.radicand then some distance else some m

/-- The loop of `isPointInCorridor` over the consecutive pairs of the polyline. -/
def corridorLoop (px py : ℚ) : List PolyPoint → Option Meters → Option Meters
  | p1 :: p2 :: rest, minDistance =>
    corridorLoop px py (p2 :: rest)
      (minMeters minDistance (pointToLineDistance px py p1.lat p1.lon p2.lat p2.lon))
  | _, minDistance => minDistance

/-- The function `isPointInCorridor(point, routePolyline, bufferMeters)`. With an undefined
coordinate every segment distance is `NaN`, and both `NaN <= bufferMeters` and
`Infinity <= bufferMeters` are false. -/
def isPointInCorridor (point : GeoPoint) (routePolyline : List PolyPoint)
    (bufferMeters : ℚ) : Bool :=
  match point.latitude, point.longitude with
  | some px, some py =>
    match corridorLoop px py routePolyline none with
    | none => false
    | some minDistance => minDistance.leBuffer bufferMeters
  | _, _ => false

/-! ## findBestMatchingRoute -/

/-- A GPS point of a trip as stored: either naming convention may be present. -/
structure GpsPoint where
  latitude : Option ℚ
  longitude : Option ℚ
  lat : Option ℚ
  lon : Option ℚ
  deriving DecidableEq, Repr

/-- The `verification` object of a route document. -/
structure VerificationConfig where
  corridorBuffer_m : ℚ
  minInsideRatio : ℚ
  distanceRatioMin : ℚ
  distanceRatioMax : ℚ
  deriving DecidableEq, Repr

/-- An element of the `approvedRoutes` array of a route document. -/
structure ApprovedRoute where
  polyline : List PolyPoint
  expectedDistance_m : ℚ
  deriving DecidableEq, Repr

/-- A document of the `approved_routes` collection; `approvedRoutes0` is
`approvedRoutes[0]`. -/
structure Route where
  id : String
  name : String
  fullName : String
  approvedRoutes0 : ApprovedRoute
  verification : VerificationConfig
  deriving DecidableEq, Repr

/-- The `matchDetails` object; `shapePoints` is `components.shapePoints`. -/
structure MatchDetails where
  routeId : String
  routeName : String
  startMatch : Bool
  endMatch : Bool
  shapeMatchRatio : ℚ
  shapePoints : Int
  totalScore : Int
  deriving DecidableEq, Repr

/-- The object returned by `findBestMatchingRoute`; the early return for an empty
collection has no `allMatches`. -/
structure MatchResult where
  route : Option Route
  score : ℚ
  matchDetails : Option MatchDetails
  allMatches : Option (List MatchDetails)
  deriving DecidableEq, Repr

/-- JavaScript truthiness of a number or `undefined`. -/
def truthy (v : Option ℚ) : Bool :=
  match v with
  | some q => q != 0
  | none => false

/-- The expression `a || b`. -/
def jsOr (a b : Option ℚ) : Option ℚ :=
  if truthy a then a else b

/-- The function `Math.round`: the nearest integer, halves going up. -/
def jsRound (x : ℚ) : Int :=
  Int.floor (x + 1 / 2)

/-- The constant `sampleSize = Math.min(traveledGPSPoints.length, 30)`. -/
def sampleSize (traceLength : Nat) : Nat :=
  min traceLength 30

/-- The constant `step = Math.max(1, Math.floor(traveledGPSPoints.length / sampleSize))`.
For an empty trace the quotient is `NaN` in the code and 0 here; the loop then has no
iteration either way. -/
def sampleStep (traceLength : Nat) : Nat :=
  max 1 (traceLength / sampleSize traceLength)

/-- The body of the sampling loop at index `i`: skip a point with a falsy coordinate,
otherwise count it when it is in the widened corridor. -/
def sampleBody (traveledGPSPoints : List GpsPoint) (route : Route) (i : Nat)
    (pointsInside : Nat) : Nat :=
  match traveledGPSPoints[i]? with
  | none => pointsInside
  | some point =>
    let lat := jsOr point.latitude point.lat
    let lon := jsOr point.longitude point.lon
    if !truthy lat || !truthy lon then pointsInside
    else if isPointInCorridor { latitude := lat, longitude := lon }
        route.approvedRoutes0.polyline (route.verification.corridorBuffer_m * (5 / 2))
      then pointsInside + 1
      else pointsInside

/-- The loop `for (let i = 0; i < traveledGPSPoints.length; i += step)`, started at `i`
with the count `pointsInside`; `fuel` bounds the number of iterations. -/
def sampleLoop (traveledGPSPoints : List GpsPoint) (route : Route) (step : Nat) :
    Nat → Nat → Nat → Nat
  | 0, _, pointsInside => pointsInside
  | fuel + 1, i, pointsInside =>
    if i < traveledGPSPoints.length then
      sampleLoop traveledGPSPoints route step fuel (i + step)
        (sampleBody traveledGPSPoints route i pointsInside)
    else pointsInside

/-- The values taken by the loop variable `i` of the sampling loop, from `i` on. -/
def sampledIndicesFrom (traceLength step : Nat) : Nat → Nat → List Nat
  | 0, _ => []
  | fuel + 1, i =>
    if i < traceLength then i :: sampledIndicesFrom traceLength step fuel (i + step) else []

/-- The trace indices visited by the sampling loop for a trace of the given length. -/
def sampledIndices (traceLength : Nat) : List Nat :=
  sampledIndicesFrom traceLength (sampleStep traceLength) traceLength 0

/-- The variable `pointsInside` after the sampling loop. The step is at least 1, so
`traveledGPSPoints.length` iterations are enough fuel. -/
def pointsInside (traveledGPSPoints : List GpsPoint) (route : Route) : Nat :=
  sampleLoop traveledGPSPoints route (sampleStep traveledGPSPoints.length)
    traveledGPSPoints.length 0 0

/-- The value `shapeMatchRatio = sampleSize > 0 ? pointsInside / sampleSize : 0`. -/
def shapeMatchRatio (traveledGPSPoints : List GpsPoint) (route : Route) : ℚ :=
  if sampleSize traveledGPSPoints.length > 0 then
    (pointsInside traveledGPSPoints route : ℚ) / (sampleSize traveledGPSPoints.length : ℚ)
  else 0

/-- The unrounded `score = shapeMatchRatio * 100` of one route. -/
def routeScore (traveledGPSPoints : List GpsPoint) (route : Route) : ℚ :=
  shapeMatchRatio traveledGPSPoints route * 100

/-- The `matchDetails` object built for one route. -/
def routeMatchDetails (traveledGPSPoints : List GpsPoint) (route : Route) : MatchDetails :=
  { routeId := route.id
    routeName := route.fullName
    startMatch := false
    endMatch := false
    shapeMatchRatio := shapeMatchRatio traveledGPSPoints route
    shapePoints := jsRound (shapeMatchRatio traveledGPSPoints route * 100)
    totalScore := jsRound (routeScore traveledGPSPoints route) }

/-- The variables of the loop over the route documents. -/
structure MatchState where
  bestMatch : Option Route
  bestScore : ℚ
  bestMatchDetails : Option MatchDetails
  allMatches : List MatchDetails
  deriving DecidableEq, Repr

/-- The variables before the first route document. -/
def MatchState.init : MatchState :=
  { bestMatch := none, bestScore := 0, bestMatchDetails := none, allMatches := [] }

/-- One iteration of the loop over the route documents: push the details, and keep the
route when its score is strictly above the best so far. -/
def matchStep (traveledGPSPoints : List GpsPoint) (st : MatchState) (route : Route) :
    MatchState :=
  let matchDetails := routeMatchDetails traveledGPSPoints route
  let score := routeScore traveledGPSPoints route
  let allMatches := st.allMatches ++ [matchDetails]
  if score > st.bestScore then
    { bestMatch := some route, bestScore := score, bestMatchDetails := some matchDetails,
      allMatches := allMatches }
  else { st with allMatches := allMatches }

/-- The call `allMatches.sort((a, b) => b.totalScore - a.totalScore)`: a stable sort by
descending `totalScore`. -/
def sortMatches (allMatches : List MatchDetails) : List MatchDetails :=
  List.insertionSort (fun a b => a.totalScore ≥ b.totalScore) allMatches

/-- The function `findBestMatchingRoute(startLocation, endLocation, traveledGPSPoints)`,
with the documents of the `approved_routes` collection as `catalog`. The two locations
are not read by the code. -/
def findBestMatchingRoute (catalog : List Route) (startLocation endLocation : GeoPoint)
    (traveledGPSPoints : List GpsPoint) : MatchResult :=
  let _ := startLocation
  let _ := endLocation
  if catalog.isEmpty then
    { route := none, score := 0, matchDetails := none, allMatches := none }
  else
    let st := catalog.foldl (matchStep traveledGPSPoints) MatchState.init
    if st.bestScore ≥ 60 then
      { route := st.bestMatch, score := st.bestScore, matchDetails := st.bestMatchDetails,
        allMatches := some (sortMatches st.allMatches) }
    else
      { route := none, score := st.bestScore, matchDetails := none,
        allMatches := some (sortMatches st.allMatches) }

/-- The first route of a list, in iteration order, whose unrounded score is `s`. -/
def firstWithScore (traveledGPSPoints : List GpsPoint) (s : ℚ) (routes : List Route) :
    Option Route :=
  routes.find? (fun r => decide (routeScore traveledGPSPoints r = s))

/-- The trace whose points are the points of a polyline, in order, under the
`latitude`/`longitude` naming. -/
def traceOfPolyline (polyline : List PolyPoint) : List GpsPoint :=
  polyline.map (fun p => { latitude := some p.lat, longitude := some p.lon,
                           lat := none, lon := none })

/-! ## Binary64 arithmetic -/

/-- The power `2 ^ k` for an integer exponent. -/
def pow2 (k : Int) : ℚ :=
  if 0 ≤ k then ((2 ^ k.toNat : Nat) : ℚ) else 1 / ((2 ^ (-k).toNat : Nat) : ℚ)

/-- The binary logarithm of a natural number, rounded down, by repeated halving; `fuel`
bounds the number of halvings. -/
def log2Fuel : Nat → Nat → Nat
  | 0, _ => 0
  | fuel + 1, n => if n < 2 then 0 else log2Fuel fuel (n / 2) + 1

/-- The binary logarithm of a positive rational, rounded down: the exponent `e` with
`2 ^ e ≤ a < 2 ^ (e + 1)`. -/
def floorLog2 (a : ℚ) : Int :=
  let e0 : Int :=
    (log2Fuel a.num.natAbs a.num.natAbs : Int) - (log2Fuel a.den a.den : Int)
  if pow2 e0 ≤ a then e0 else e0 - 1

/-- Rounding of a rational that is not negative to an integer, ties to even. -/
def roundHalfEven (m : ℚ) : Int :=
  let f := Int.floor m
  let r := m - (f : ℚ)
  if r < 1 / 2 then f
  else if r > 1 / 2 then f + 1
  else if f % 2 = 0 then f else f + 1

/-- Rounding of a positive magnitude to 53 significant bits, to nearest, ties to even;
exponents below -1022 keep the spacing `2 ^ -1074`. -/
def roundMagnitude (a : ℚ) : ℚ :=
  let e : Int := max (floorLog2 a) (-1022)
  let ulp : ℚ := pow2 (e - 52)
  (roundHalfEven (a / ulp) : ℚ) * ulp

/-- Rounding of an exact result to binary64, to nearest, ties to even; a result of
`2 ^ 1024` or more in magnitude is an infinity. The sign of a zero is not kept. -/
def roundDouble (q : ℚ) : JSNum :=
  if q = 0 then JSNum.num 0
  else if roundMagnitude (if q < 0 then -q else q) ≥ pow2 1024 then
    (if q > 0 then JSNum.posInf else JSNum.negInf)
  else
    JSNum.num (if q > 0 then roundMagnitude (if q < 0 then -q else q)
                else -roundMagnitude (if q < 0 then -q else q))

/-- The binary64 number denoted by a decimal literal such as `0.9`. -/
def double (q : ℚ) : ℚ :=
  match roundDouble q with
  | JSNum.num r => r
  | _ => 0

/-- The negation `-x`. -/
def JSNum.neg : JSNum → JSNum
  | .num a => .num (-a)
  | .nan => .nan
  | .posInf => .negInf
  | .negInf => .posInf

/-- The sum `x + y` in binary64. -/
def JSNum.add : JSNum → JSNum → JSNum
  | .nan, _ => .nan
  | _, .nan => .nan
  | .num a, .num b => roundDouble (a + b)
  | .posInf, .negInf => .nan
  | .negInf, .posInf => .nan
  | .posInf, _ => .posInf
  | _, .posInf => .posInf
  | .negInf, _ => .negInf
  | _, .negInf => .negInf

/-- The difference `x - y` in binary64. -/
def JSNum.sub (x y : JSNum) : JSNum :=
  x.add y.neg

/-- The product `x * y` in binary64. -/
def JSNum.mul : JSNum → JSNum → JSNum
  | .nan, _ => .nan
  | _, .nan => .nan
  | .num a, .num b => roundDouble (a * b)
  | .num a, .posInf => if a = 0 then .nan else if a > 0 then .posInf else .negInf
  | .num a, .negInf => if a = 0 then .nan else if a > 0 then .negInf else .posInf
  | .posInf, .num b => if b = 0 then .nan else if b > 0 then .posInf else .negInf
  | .negInf, .num b => if b = 0 then .nan else if b > 0 then .negInf else .posInf
  | .posInf, .posInf => .posInf
  | .posInf, .negInf => .negInf
  | .negInf, .posInf => .negInf
  | .negInf, .negInf => .posInf

/-- The comparison `x < y`; it is false when either side is `NaN`. -/
def JSNum.lt : JSNum → JSNum → Bool
  | .nan, _ => false
  | _, .nan => false
  | .num a, .num b => decide (a < b)
  | .num _, .posInf => true
  | .num _, .negInf => false
  | .posInf, _ => false
  | .negInf, .negInf => false
  | .negInf, _ => true

/-! ## verifyRoute and verifyDistance -/

/-- The division `a / b` of two finite numbers, rounded to binary64: a zero divisor gives
`Infinity`, `-Infinity` or, for `0 / 0`, `NaN`. -/
def jsDiv (a b : ℚ) : JSNum :=
  if b ≠ 0 then roundDouble (a / b)
  else if a > 0 then JSNum.posInf
  else if a < 0 then JSNum.negInf
  else JSNum.nan

/-- The product `a * b` of two finite numbers, rounded to binary64. -/
def jsMul (a b : ℚ) : JSNum :=
  roundDouble (a * b)

/-- The quotient `x / y` in binary64. -/
def JSNum.div : JSNum → JSNum → JSNum
  | .nan, _ => .nan
  | _, .nan => .nan
  | .num a, .num b => jsDiv a b
  | .num _, .posInf => .num 0
  | .num _, .negInf => .num 0
  | .posInf, .num b => if b ≥ 0 then .posInf else .negInf
  | .negInf, .num b => if b ≥ 0 then .negInf else .posInf
  | .posInf, .posInf => .nan
  | .posInf, .negInf => .nan
  | .negInf, .posInf => .nan
  | .negInf, .negInf => .nan

/-- The comparison `x >= c` with a finite `c`; it is false for `NaN`. -/
def JSNum.ge (x : JSNum) (c : ℚ) : Bool :=
  match x with
  | .num q => decide (q ≥ c)
  | .nan => false
  | .posInf => true
  | .negInf => false

/-- The comparison `x <= c` with a finite `c`; it is false for `NaN`. -/
def JSNum.le (x : JSNum) (c : ℚ) : Bool :=
  match x with
  | .num q => decide (q ≤ c)
  | .nan => false
  | .posInf => false
  | .negInf => true

/-- The loop `for (const point of gpsPoints)` of `verifyRoute`: the final `pointsInside`.
Only the fields `latitude` and `longitude` of a point are read. -/
def verifyRouteLoop (gpsPoints : List GpsPoint) (routePolyline : List PolyPoint)
    (corridorBuffer_m : ℚ) : Nat :=
  gpsPoints.foldl
    (fun pointsInside point =>
      if isPointInCorridor { latitude := point.latitude, longitude := point.longitude }
          routePolyline corridorBuffer_m
        then pointsInside + 1
        else pointsInside)
    0

/-- The function `verifyRoute(gpsPoints, approvedRoute, verificationConfig)`. -/
def verifyRoute (gpsPoints : List GpsPoint) (approvedRoute : ApprovedRoute)
    (verificationConfig : VerificationConfig) : RouteCheck :=
  let corridorBuffer_m := verificationConfig.corridorBuffer_m
  let minInsideRatio := verificationConfig.minInsideRatio
  let routePolyline := approvedRoute.polyline
  let pointsInside := verifyRouteLoop gpsPoints routePolyline corridorBuffer_m
  let totalPoints := gpsPoints.length
  let insideRatio := jsDiv (pointsInside : ℚ) (totalPoints : ℚ)
  let passed := insideRatio.ge minInsideRatio
  { passed := passed, insideRatio := insideRatio, pointsInside := pointsInside,
    totalPoints := totalPoints, bufferUsed := corridorBuffer_m }

/-- The function `verifyDistance(traveledDistance, expectedDistance, config)`. The outcome
of the call is explicit: `Except.ok` is a returned object, `Except.error` a thrown error.
No statement of the function throws, so the outcome is always a returned object. -/
def verifyDistance (traveledDistance expectedDistance : ℚ) (config : VerificationConfig) :
    Except String DistanceCheck :=
  let distanceRatioMin := config.distanceRatioMin
  let distanceRatioMax := config.distanceRatioMax
  let ratio := jsDiv traveledDistance expectedDistance
  let passed := ratio.ge distanceRatioMin && ratio.le distanceRatioMax
  Except.ok
    { passed := passed, ratio := ratio, traveledDistance := traveledDistance,
      expectedDistance := expectedDistance,
      minAllowed := jsMul expectedDistance distanceRatioMin,
      maxAllowed := jsMul expectedDistance distanceRatioMax }

/-! ## pointToLineDistance: the projection parameter and the value in metres -/

/-- The variable `param` of `pointToLineDistance`: `dot / lenSq`, or `-1` for a segment
of length zero. -/
def projectionParam (px py x1 y1 x2 y2 : ℚ) : ℚ :=
  let A := px - x1
  let B := py - y1
  let C := x2 - x1
  let D := y2 - y1
  let dot := A * C + B * D
  let lenSq := C * C + D * D
  if lenSq ≠ 0 then dot / lenSq else -1

/-- The square of the planar Euclidean distance between two points, in squared degrees. -/
def planarDistSq (px py x y : ℚ) : ℚ :=
  (px - x) ^ 2 + (py - y) ^ 2

/-- The real number that a `Meters` stands for: `v` is `Math.sqrt(radicand) * 111000`. -/
def Meters.HasValue (m : Meters) (v : ℝ) : Prop :=
  v = Real.sqrt (m.radicand : ℝ) * 111000

/-! ## pointToLineDistance in binary64 -/

/-- The value `Math.sqrt(radicand) * 111000` computed in binary64, kept as the binary64
radicand `dx * dx + dy * dy`. -/
structure MetersDouble where
  radicand : JSNum
  deriving DecidableEq, Repr

/-- Whether the value is 0: `Math.sqrt(s) * 111000` is 0 exactly when `s` is 0. -/
def MetersDouble.isZero (m : MetersDouble) : Bool :=
  decide (m.radicand = JSNum.num 0)

/-- The variable `param` of `pointToLineDistance`, every operation rounded to binary64. -/
def projectionParamDouble (px py x1 y1 x2 y2 : ℚ) : JSNum :=
  let A := (JSNum.num px).sub (JSNum.num x1)
  let B := (JSNum.num py).sub (JSNum.num y1)
  let C := (JSNum.num x2).sub (JSNum.num x1)
  let D := (JSNum.num y2).sub (JSNum.num y1)
  let dot := (A.mul C).add (B.mul D)
  let lenSq := (C.mul C).add (D.mul D)
  if lenSq ≠ JSNum.num 0 then dot.div lenSq else JSNum.num (-1)

/-- The function `pointToLineDistance(px, py, x1, y1, x2, y2)`, every operation rounded to
binary64. -/
def pointToLineDistanceDouble (px py x1 y1 x2 y2 : ℚ) : MetersDouble :=
  let C := (JSNum.num x2).sub (JSNum.num x1)
  let D := (JSNum.num y2).sub (JSNum.num y1)
  let param := projectionParamDouble px py x1 y1 x2 y2
  let xx : JSNum :=
    if param.lt (JSNum.num 0) then JSNum.num x1
    else if (JSNum.num 1).lt param then JSNum.num x2
    else (JSNum.num x1).add (param.mul C)
  let yy : JSNum :=
    if param.lt (JSNum.num 0) then JSNum.num y1
    else if (JSNum.num 1).lt param then JSNum.num y2
    else (JSNum.num y1).add (param.mul D)
  let dx := (JSNum.num px).sub xx
  let dy := (JSNum.num py).sub yy
  { radicand := (dx.mul dx).add (dy.mul dy) }

/-- The square of the planar distance between two points computed in binary64:
`dx * dx + dy * dy` with `dx = px - x` and `dy = py - y`. -/
def planarDistSqDouble (px py x y : ℚ) : JSNum :=
  let dx := (JSNum.num px).sub (JSNum.num x)
  let dy := (JSNum.num py).sub (JSNum.num y)
  (dx.mul dx).add (dy.mul dy)

/-! ## calculateDistance -/

/-- The members of the JavaScript `Math` object called by `calculateDistance`, as functions
on finite numbers. -/
structure JSMath where
  PI : ℚ
  sin : ℚ → ℚ
  cos : ℚ → ℚ
  sqrt : ℚ → ℚ
  atan2 : ℚ → ℚ → ℚ

/-- The facts about `Math` used below: the sine is odd, `Math.sqrt(0)` is 0, `Math.sqrt(1)`
is 1 and `Math.atan2(0, 1)` is 0. -/
structure JSMath.Standard (M : JSMath) : Prop where
  sin_neg : ∀ x, M.sin (-x) = -M.sin x
  sqrt_zero : M.sqrt 0 = 0
  sqrt_one : M.sqrt 1 = 1
  atan2_zero_one : M.atan2 0 1 = 0

/-- The function `toRadians(degrees)`. -/
def toRadians (M : JSMath) (degrees : ℚ) : ℚ :=
  degrees * (M.PI / 180)

/-- The function `calculateDistance(lat1, lon1, lat2, lon2)`, the Haversine formula with
Earth radius 6371000 m. -/
def calculateDistance (M : JSMath) (lat1 lon1 lat2 lon2 : ℚ) : ℚ :=
  let R : ℚ := 6371000
  let dLat := toRadians M (lat2 - lat1)
  let dLon := toRadians M (lon2 - lon1)
  let a := M.sin (dLat / 2) * M.sin (dLat / 2) +
    M.cos (toRadians M lat1) * M.cos (toRadians M lat2) *
    M.sin (dLon / 2) * M.sin (dLon / 2)
  let c := 2 * M.atan2 (M.sqrt a) (M.sqrt (1 - a))
  R * c

/-! ## Example data -/

/-- A trace point under the `latitude`/`longitude` naming. -/
def gpsPoint (latitude longitude : ℚ) : GpsPoint :=
  { latitude := some latitude, longitude := some longitude, lat := none, lon := none }

/-- Route A: one segment from (1, 1) to (1, 2), corridor buffer 25 m. -/
def exampleRouteA : Route :=
  { id := "A", name := "a", fullName := "Route A",
    approvedRoutes0 := { polyline := [⟨1, 1⟩, ⟨1, 2⟩], expectedDistance_m := 1000 },
    verification := { corridorBuffer_m := 25, minInsideRatio := 4 / 5,
                      distanceRatioMin := 4 / 5, distanceRatioMax := 6 / 5 } }

/-- Route B: another document with the polyline of route A. -/
def exampleRouteB : Route :=
  { exampleRouteA with id := "B", name := "b", fullName := "Route B" }

/-- A location object; the matcher does not read it. -/
def exampleLocation : GeoPoint :=
  { latitude := some 1, longitude := some 1 }

/-- Route L: route A prolonged by a second segment to (1, 3). -/
def exampleRouteLong : Route :=
  { exampleRouteA with
    id := "L", name := "l", fullName := "Route L",
    approvedRoutes0 := { polyline := [⟨1, 1⟩, ⟨1, 2⟩, ⟨1, 3⟩], expectedDistance_m := 2000 } }

/-- A trip of 50 points: 45 on the segment of route A, then 5 points far away from it. -/
def exampleTrace50 : List GpsPoint :=
  (List.range 45).map (fun k => gpsPoint 1 (1 + (k : ℚ) / 100))
    ++ (List.range 5).map (fun k => gpsPoint 5 (5 + (k : ℚ) / 100))

/-- A trip of 31 points, all on the segment of route A. -/
def exampleTrace31 : List GpsPoint :=
  (List.range 31).map (fun k => gpsPoint 1 (1 + (k : ℚ) / 100))

/-- A trace point stored under the `lat`/`lon` naming only: its `latitude` and `longitude`
are undefined. -/
def gpsPointLatLon (lat lon : ℚ) : GpsPoint :=
  { latitude := none, longitude := none, lat := some lat, lon := some lon }

/-- A configuration whose ratios are the binary64 numbers `0.8` and `1.2`. -/
def exampleConfigDouble : VerificationConfig :=
  { corridorBuffer_m := 25, minInsideRatio := double (4 / 5),
    distanceRatioMin := double (4 / 5), distanceRatioMax := double (6 / 5) }

/-- A configuration whose ratios `0.5` and `1.5` are binary64 numbers. -/
def exampleConfigDyadic : VerificationConfig :=
  { corridorBuffer_m := 25, minInsideRatio := 3 / 4,
    distanceRatioMin := 1 / 2, distanceRatioMax := 3 / 2 }

/-- A trace point without any coordinate. -/
def gpsPointMissing : GpsPoint :=
  { latitude := none, longitude := none, lat := none, lon := none }

/-- A rational stand-in for `Math`: truncated series for sine and cosine, a square root
that is exact on quotients of perfect squares, and the first term of the arctangent
series. -/
def exampleMath : JSMath :=
  { PI := 355 / 113
    sin := fun x => x - x ^ 3 / 6
    cos := fun x => 1 - x ^ 2 / 2
    sqrt := fun x => (Nat.sqrt x.num.natAbs : ℚ) / (Nat.sqrt x.den : ℚ)
    atan2 := fun y x => if x = 0 then 0 else y / x }

/-! ## determineVerdict: properties -/

/-- C1: the score returned by `determineVerdict` is 100, minus 30 when the route check
failed, minus 20 when the distance check failed, minus 30 when the total penalty is over
200 or else minus 20 when it is over 100; and it is the score that stood before the final
score bands were applied, which only touch the label. -/
theorem determineVerdict_score (routeCheck : RouteCheck) (distanceCheck : DistanceCheck)
    (penalty : Penalty) :
    (determineVerdict routeCheck distanceCheck penalty).score =
        100 - (if routeCheck.passed = false then 30 else 0)
          - (if distanceCheck.passed = false then 20 else 0)
          - (if penalty.totalPenalty > 200 then 30
              else if penalty.totalPenalty > 100 then 20 else 0)
      ∧ (determineVerdict routeCheck distanceCheck penalty).score =
          (verdictBeforeFinal routeCheck distanceCheck penalty).2 := by
  refine ⟨?_, ?_⟩
  · simp only [determineVerdict, verdictFinalStep, verdictBeforeFinal, verdictPenaltyStep,
      verdictDistanceStep, verdictRouteStep]
    cases routeCheck.passed <;> cases distanceCheck.passed <;>
      by_cases h2 : penalty.totalPenalty > 200 <;>
      by_cases h1 : penalty.totalPenalty > 100 <;> simp [h1, h2]
  · simp only [determineVerdict, verdictFinalStep]
    split_ifs <;> rfl

/-- C2: the final label of `determineVerdict` follows the score bands, applied last: below 50
it is denied; from 50 up to 70 it is warning, also when a total penalty over 200 had set
denied before; from 70 on it is the label left by the earlier steps. Both checks passed
with a total penalty in (100, 200] gives 80 and warning; route failed, distance passed and
total penalty 0 gives 70 and warning. -/
theorem determineVerdict_label_bands (routeCheck : RouteCheck) (distanceCheck : DistanceCheck)
    (penalty : Penalty) :
    ((determineVerdict routeCheck distanceCheck penalty).score < 50 →
        (determineVerdict routeCheck distanceCheck penalty).verdict = VerdictLabel.denied)
      ∧ (50 ≤ (determineVerdict routeCheck distanceCheck penalty).score →
          (determineVerdict routeCheck distanceCheck penalty).score < 70 →
          (determineVerdict routeCheck distanceCheck penalty).verdict = VerdictLabel.warning)
      ∧ (penalty.totalPenalty > 200 →
          (verdictBeforeFinal routeCheck distanceCheck penalty).1 = VerdictLabel.denied)
      ∧ (70 ≤ (determineVerdict routeCheck distanceCheck penalty).score →
          (determineVerdict routeCheck distanceCheck penalty).verdict =
            (verdictBeforeFinal routeCheck distanceCheck penalty).1)
      ∧ (routeCheck.passed = true → distanceCheck.passed = true →
          100 < penalty.totalPenalty → penalty.totalPenalty ≤ 200 →
          (determineVerdict routeCheck distanceCheck penalty).score = 80 ∧
            (determineVerdict routeCheck distanceCheck penalty).verdict = VerdictLabel.warning)
      ∧ (routeCheck.passed = false → distanceCheck.passed = true →
          penalty.totalPenalty = 0 →
          (determineVerdict routeCheck distanceCheck penalty).score = 70 ∧
            (determineVerdict routeCheck distanceCheck penalty).verdict = VerdictLabel.warning) := by
  refine ⟨?_, ?_, ?_, ?_, ?_, ?_⟩
  · simp only [determineVerdict, verdictFinalStep]
    split_ifs <;> simp_all
  · simp only [determineVerdict, verdictFinalStep]
    split_ifs <;> simp_all
  · intro h
    simp [verdictBeforeFinal, verdictPenaltyStep, h]
  · simp only [determineVerdict, verdictFinalStep]
    split_ifs <;> simp_all <;> omega
  · intro hr hd h1 h2
    have h3 : ¬ penalty.totalPenalty > 200 := by omega
    simp [determineVerdict, verdictFinalStep, verdictBeforeFinal, verdictPenaltyStep,
      verdictDistanceStep, verdictRouteStep, hr, hd, h1, h3]
  · intro hr hd h0
    simp [determineVerdict, verdictFinalStep, verdictBeforeFinal, verdictPenaltyStep,
      verdictDistanceStep, verdictRouteStep, hr, hd, h0]

/-- Witness for C2: route passed, distance failed and a total penalty of 250 leaves denied
at score 50 before the bands, and the band [50, 70) turns it into warning. -/
theorem determineVerdict_label_bands_witness :
    (verdictBeforeFinal ⟨true, JSNum.num 1, 4, 4, 25⟩ ⟨false, JSNum.num 2, 2, 1, 1, 1⟩
        ⟨250, [Violation.speed 5 250]⟩).1 = VerdictLabel.denied
      ∧ (determineVerdict ⟨true, JSNum.num 1, 4, 4, 25⟩ ⟨false, JSNum.num 2, 2, 1, 1, 1⟩
          ⟨250, [Violation.speed 5 250]⟩).verdict = VerdictLabel.warning :=
  ⟨(determineVerdict_label_bands ⟨true, JSNum.num 1, 4, 4, 25⟩ ⟨false, JSNum.num 2, 2, 1, 1, 1⟩
      ⟨250, [Violation.speed 5 250]⟩).2.2.1 (by decide),
   (determineVerdict_label_bands ⟨true, JSNum.num 1, 4, 4, 25⟩ ⟨false, JSNum.num 2, 2, 1, 1, 1⟩
      ⟨250, [Violation.speed 5 250]⟩).2.1 (by decide) (by decide)⟩

/-- C3, as stated, fails: with the route check passed, the distance check failed and a
total penalty of 250 (five speed violations), the penalty step sets denied at score 50 and
the band [50, 70) replaces it by warning. -/
theorem determineVerdict_denied_not_kept :
    (calculatePenalty 5 20 20 (some ⟨true, JSNum.num 1, 4, 4, 25⟩)).totalPenalty > 200
      ∧ (determineVerdict ⟨true, JSNum.num 1, 4, 4, 25⟩ ⟨false, JSNum.num 2, 2, 1, 1, 1⟩
          (calculatePenalty 5 20 20 (some ⟨true, JSNum.num 1, 4, 4, 25⟩))).verdict
          ≠ VerdictLabel.denied := by
  decide

/-- C3, amended: with a total penalty over 200 the final label is denied, except when the
route check passed and the distance check failed; there the score is 50 and the band
[50, 70) makes the label warning although the penalty step had set denied. -/
theorem determineVerdict_penalty_over_200 (routeCheck : RouteCheck)
    (distanceCheck : DistanceCheck) (penalty : Penalty) (h : penalty.totalPenalty > 200) :
    (verdictBeforeFinal routeCheck distanceCheck penalty).1 = VerdictLabel.denied
      ∧ (¬ (routeCheck.passed = true ∧ distanceCheck.passed = false) →
          (determineVerdict routeCheck distanceCheck penalty).verdict = VerdictLabel.denied)
      ∧ (routeCheck.passed = true ∧ distanceCheck.passed = false →
          (determineVerdict routeCheck distanceCheck penalty).score = 50 ∧
            (determineVerdict routeCheck distanceCheck penalty).verdict
              = VerdictLabel.warning) := by
  simp only [determineVerdict, verdictFinalStep, verdictBeforeFinal, verdictPenaltyStep,
    verdictDistanceStep, verdictRouteStep]
  cases routeCheck.passed <;> cases distanceCheck.passed <;> simp [h]

/-- Witness for the amended C3: with both checks passed and a total penalty of 250 the
label stays denied (score 70). -/
theorem determineVerdict_penalty_over_200_witness :
    (determineVerdict ⟨true, JSNum.num 1, 4, 4, 25⟩ ⟨true, JSNum.num 1, 1, 1, 1, 1⟩
        ⟨250, [Violation.speed 5 250]⟩).verdict = VerdictLabel.denied :=
  (determineVerdict_penalty_over_200 ⟨true, JSNum.num 1, 4, 4, 25⟩
    ⟨true, JSNum.num 1, 1, 1, 1, 1⟩ ⟨250, [Violation.speed 5 250]⟩ (by decide)).2.1 (by decide)

/-! ## calculatePenalty: properties -/

/-- C4: the violations list of `calculatePenalty` holds, in this order, a speed item of
50 times the count exactly when the count is positive, a serious-speeding item of 200
exactly when the maximum speed is over 35, and a route-deviation item of 100 exactly when
the route check failed; the total is the sum of the item penalties and is not negative.
Three violations, maximum speed 40 and a failed route check give 150, 200, 100 and 450. -/
theorem calculatePenalty_items (violationsCount : Int) (maxSpeed speedLimit : ℚ)
    (shapeCheck : RouteCheck) :
    (calculatePenalty violationsCount maxSpeed speedLimit (some shapeCheck)).violations =
        (if violationsCount > 0 then [Violation.speed violationsCount (50 * violationsCount)]
          else [])
        ++ (if maxSpeed > 35 then [Violation.serious_speeding maxSpeed 200] else [])
        ++ (if shapeCheck.passed = false
            then [Violation.route_deviation shapeCheck.insideRatio 100] else [])
      ∧ (calculatePenalty violationsCount maxSpeed speedLimit (some shapeCheck)).totalPenalty =
          ((calculatePenalty violationsCount maxSpeed speedLimit
            (some shapeCheck)).violations.map Violation.penalty).sum
      ∧ 0 ≤ (calculatePenalty violationsCount maxSpeed speedLimit (some shapeCheck)).totalPenalty
      ∧ ((calculatePenalty 3 40 speedLimit
            (some { shapeCheck with passed := false })).violations.map
              (fun v => (v.type, v.penalty))
            = [("speed", 150), ("serious_speeding", 200), ("route_deviation", 100)]
          ∧ (calculatePenalty 3 40 speedLimit
              (some { shapeCheck with passed := false })).totalPenalty = 450) := by
  refine ⟨?_, ?_, ?_, ?_⟩
  · simp only [calculatePenalty, penaltySpeedStep, penaltySeriousStep, penaltyRouteStep]
    by_cases hv : violationsCount > 0 <;> by_cases hm : maxSpeed > 35 <;>
      cases shapeCheck.passed <;> simp [hv, hm, mul_comm]
  · simp only [calculatePenalty, penaltySpeedStep, penaltySeriousStep, penaltyRouteStep]
    by_cases hv : violationsCount > 0 <;> by_cases hm : maxSpeed > 35 <;>
      cases shapeCheck.passed <;> simp [hv, hm, Violation.penalty] <;> omega
  · simp only [calculatePenalty, penaltySpeedStep, penaltySeriousStep, penaltyRouteStep]
    by_cases hv : violationsCount > 0 <;> by_cases hm : maxSpeed > 35 <;>
      cases shapeCheck.passed <;> simp [hv, hm] <;> omega
  · have h40 : (40 : ℚ) > 35 := by norm_num
    simp [calculatePenalty, penaltySpeedStep, penaltySeriousStep, penaltyRouteStep, h40,
      Violation.type, Violation.penalty]

/-! ## findBestMatchingRoute: the loop over the route documents -/

theorem routeScore_nonneg (trace : List GpsPoint) (route : Route) :
    0 ≤ routeScore trace route := by
  unfold routeScore shapeMatchRatio
  split_ifs
  · positivity
  · simp

theorem matchStep_of_gt (trace : List GpsPoint) (st : MatchState) (route : Route)
    (h : routeScore trace route > st.bestScore) :
    matchStep trace st route =
      { bestMatch := some route, bestScore := routeScore trace route,
        bestMatchDetails := some (routeMatchDetails trace route),
        allMatches := st.allMatches ++ [routeMatchDetails trace route] } := by
  simp [matchStep, h]

theorem matchStep_of_not_gt (trace : List GpsPoint) (st : MatchState) (route : Route)
    (h : ¬ routeScore trace route > st.bestScore) :
    matchStep trace st route =
      { st with allMatches := st.allMatches ++ [routeMatchDetails trace route] } := by
  simp [matchStep, h]

theorem foldl_matchStep_allMatches (trace : List GpsPoint) (l : List Route) (st : MatchState) :
    (l.foldl (matchStep trace) st).allMatches
      = st.allMatches ++ l.map (routeMatchDetails trace) := by
  induction l generalizing st with
  | nil => simp
  | cons r rest ih =>
    rw [List.foldl_cons, ih]
    by_cases h : routeScore trace r > st.bestScore
    · simp [matchStep_of_gt trace st r h]
    · simp [matchStep_of_not_gt trace st r h]

theorem firstWithScore_cons_eq (trace : List GpsPoint) (s : ℚ) (r : Route) (rest : List Route)
    (h : routeScore trace r = s) : firstWithScore trace s (r :: rest) = some r := by
  simp [firstWithScore, h]

theorem firstWithScore_cons_ne (trace : List GpsPoint) (s : ℚ) (r : Route) (rest : List Route)
    (h : routeScore trace r ≠ s) :
    firstWithScore trace s (r :: rest) = firstWithScore trace s rest := by
  simp [firstWithScore, h]

theorem firstWithScore_some (trace : List GpsPoint) (s : ℚ) (l : List Route) (r : Route)
    (h : firstWithScore trace s l = some r) : r ∈ l ∧ routeScore trace r = s := by
  unfold firstWithScore at h
  have h1 := List.find?_some h
  have h2 := List.mem_of_find?_eq_some h
  exact ⟨h2, by simpa using h1⟩

/-- The invariant of the loop over the route documents: the best score never decreases and
bounds every score seen; while it is unchanged the best route is unchanged; once it has
grown, the best route is the first route seen with that score. -/
theorem foldl_matchStep_best (trace : List GpsPoint) (l : List Route) (st : MatchState) :
    st.bestScore ≤ (l.foldl (matchStep trace) st).bestScore
      ∧ (∀ r ∈ l, routeScore trace r ≤ (l.foldl (matchStep trace) st).bestScore)
      ∧ ((l.foldl (matchStep trace) st).bestScore = st.bestScore →
          (l.foldl (matchStep trace) st).bestMatch = st.bestMatch ∧
          (l.foldl (matchStep trace) st).bestMatchDetails = st.bestMatchDetails)
      ∧ (st.bestScore < (l.foldl (matchStep trace) st).bestScore →
          ∃ r, firstWithScore trace (l.foldl (matchStep trace) st).bestScore l = some r ∧
            (l.foldl (matchStep trace) st).bestMatch = some r ∧
            (l.foldl (matchStep trace) st).bestMatchDetails
              = some (routeMatchDetails trace r)) := by
  induction l generalizing st with
  | nil => simp
  | cons r rest ih =>
    rw [List.foldl_cons]
    obtain ⟨h1, h2, h3, h4⟩ := ih (matchStep trace st r)
    by_cases hgt : routeScore trace r > st.bestScore
    · have e := matchStep_of_gt trace st r hgt
      have eS : (matchStep trace st r).bestScore = routeScore trace r := by rw [e]
      have eM : (matchStep trace st r).bestMatch = some r := by rw [e]
      have eD : (matchStep trace st r).bestMatchDetails = some (routeMatchDetails trace r) := by
        rw [e]
      rw [eS] at h1 h3 h4
      refine ⟨le_trans (le_of_lt hgt) h1, ?_, ?_, ?_⟩
      · intro x hx
        rcases List.mem_cons.mp hx with rfl | hx
        · exact h1
        · exact h2 x hx
      · intro hEq
        exact absurd (lt_of_lt_of_le hgt h1) (by rw [hEq]; exact lt_irrefl _)
      · intro _
        rcases eq_or_lt_of_le h1 with hEq | hLt
        · obtain ⟨hm, hd⟩ := h3 hEq.symm
          exact ⟨r, firstWithScore_cons_eq trace _ r rest hEq, by rw [hm, eM], by rw [hd, eD]⟩
        · obtain ⟨x, hx, hm, hd⟩ := h4 hLt
          exact ⟨x, by rw [firstWithScore_cons_ne trace _ r rest (ne_of_lt hLt)]; exact hx,
            hm, hd⟩
    · have e := matchStep_of_not_gt trace st r hgt
      have eS : (matchStep trace st r).bestScore = st.bestScore := by rw [e]
      have eM : (matchStep trace st r).bestMatch = st.bestMatch := by rw [e]
      have eD : (matchStep trace st r).bestMatchDetails = st.bestMatchDetails := by rw [e]
      rw [eS] at h1 h3 h4
      rw [eM, eD] at h3
      have hle : routeScore trace r ≤ st.bestScore := not_lt.mp hgt
      refine ⟨h1, ?_, h3, ?_⟩
      · intro x hx
        rcases List.mem_cons.mp hx with rfl | hx
        · exact le_trans hle h1
        · exact h2 x hx
      · intro hLt
        obtain ⟨x, hx, hm, hd⟩ := h4 hLt
        exact ⟨x, by
          rw [firstWithScore_cons_ne trace _ r rest (ne_of_lt (lt_of_le_of_lt hle hLt))]
          exact hx, hm, hd⟩

/-- The result of `findBestMatchingRoute` for a catalog that is not empty, in terms of the
final loop variables. -/
theorem findBestMatchingRoute_of_ne_nil (catalog : List Route) (startLocation endLocation : GeoPoint)
    (trace : List GpsPoint) (h : catalog ≠ []) :
    findBestMatchingRoute catalog startLocation endLocation trace =
      if (catalog.foldl (matchStep trace) MatchState.init).bestScore ≥ 60 then
        { route := (catalog.foldl (matchStep trace) MatchState.init).bestMatch,
          score := (catalog.foldl (matchStep trace) MatchState.init).bestScore,
          matchDetails := (catalog.foldl (matchStep trace) MatchState.init).bestMatchDetails,
          allMatches := some (sortMatches (catalog.map (routeMatchDetails trace))) }
      else
        { route := none,
          score := (catalog.foldl (matchStep trace) MatchState.init).bestScore,
          matchDetails := none,
          allMatches := some (sortMatches (catalog.map (routeMatchDetails trace))) } := by
  have hE : catalog.isEmpty = false := by
    cases catalog with
    | nil => exact absurd rfl h
    | cons _ _ => rfl
  simp only [findBestMatchingRoute, hE, foldl_matchStep_allMatches, MatchState.init]
  simp

/-- The score returned by `findBestMatchingRoute` is the final best score of the loop, which
bounds every route score, and the route returned, if any, is the first route of the catalog
with that score. -/
theorem findBestMatchingRoute_best (catalog : List Route) (startLocation endLocation : GeoPoint)
    (trace : List GpsPoint) :
    0 ≤ (findBestMatchingRoute catalog startLocation endLocation trace).score
      ∧ (∀ r ∈ catalog, routeScore trace r
          ≤ (findBestMatchingRoute catalog startLocation endLocation trace).score)
      ∧ (0 < (findBestMatchingRoute catalog startLocation endLocation trace).score →
          ∃ r, firstWithScore trace
              (findBestMatchingRoute catalog startLocation endLocation trace).score catalog
              = some r ∧
            (60 ≤ (findBestMatchingRoute catalog startLocation endLocation trace).score →
              (findBestMatchingRoute catalog startLocation endLocation trace).route = some r ∧
              (findBestMatchingRoute catalog startLocation endLocation trace).matchDetails
                = some (routeMatchDetails trace r)))
      ∧ ((findBestMatchingRoute catalog startLocation endLocation trace).score < 60 →
          (findBestMatchingRoute catalog startLocation endLocation trace).route = none) := by
  by_cases hne : catalog = []
  · subst hne
    simp [findBestMatchingRoute]
  · obtain ⟨h1, h2, _, h4⟩ := foldl_matchStep_best trace catalog MatchState.init
    rw [findBestMatchingRoute_of_ne_nil catalog startLocation endLocation trace hne]
    have h0 : MatchState.init.bestScore = 0 := rfl
    rw [h0] at h1 h4
    by_cases h60 : (catalog.foldl (matchStep trace) MatchState.init).bestScore ≥ 60
    · rw [if_pos h60]
      refine ⟨h1, h2, ?_, ?_⟩
      · intro hpos
        obtain ⟨r, hr, hm, hd⟩ := h4 hpos
        exact ⟨r, hr, fun _ => ⟨hm, hd⟩⟩
      · intro hlt
        exact absurd h60 (not_le.mpr hlt)
    · rw [if_neg h60]
      refine ⟨h1, h2, ?_, ?_⟩
      · intro hpos
        obtain ⟨r, hr, _, _⟩ := h4 hpos
        exact ⟨r, hr, fun h => absurd h h60⟩
      · intro _
        rfl

theorem findBestMatchingRoute_score_attained (catalog : List Route)
    (startLocation endLocation : GeoPoint) (trace : List GpsPoint) (h : catalog ≠ []) :
    ∃ r ∈ catalog,
      routeScore trace r = (findBestMatchingRoute catalog startLocation endLocation trace).score := by
  obtain ⟨h0, hub, hpos, _⟩ := findBestMatchingRoute_best catalog startLocation endLocation trace
  rcases eq_or_lt_of_le h0 with hz | hp
  · obtain ⟨r, hr⟩ := List.exists_mem_of_ne_nil catalog h
    exact ⟨r, hr, le_antisymm (hub r hr) (by rw [← hz]; exact routeScore_nonneg trace r)⟩
  · obtain ⟨r, hr, _⟩ := hpos hp
    exact ⟨r, (firstWithScore_some trace _ catalog r hr).1,
      (firstWithScore_some trace _ catalog r hr).2⟩

/-- C5: the result of `findBestMatchingRoute` has a route exactly when its score is at least
60; for an empty catalog the route is absent and the score is 0; and when the score is
below 60 the route is absent while the score is still the best score of the loop, which
bounds every route score and, for a catalog that is not empty, is the score of one of
its routes. -/
theorem findBestMatchingRoute_route_iff (catalog : List Route)
    (startLocation endLocation : GeoPoint) (trace : List GpsPoint) :
    ((findBestMatchingRoute catalog startLocation endLocation trace).route.isSome = true ↔
        60 ≤ (findBestMatchingRoute catalog startLocation endLocation trace).score)
      ∧ ((findBestMatchingRoute [] startLocation endLocation trace).route = none ∧
          (findBestMatchingRoute [] startLocation endLocation trace).score = 0)
      ∧ ((findBestMatchingRoute catalog startLocation endLocation trace).score < 60 →
          (findBestMatchingRoute catalog startLocation endLocation trace).route = none ∧
          (findBestMatchingRoute catalog startLocation endLocation trace).score
            = (catalog.foldl (matchStep trace) MatchState.init).bestScore ∧
          (∀ r ∈ catalog, routeScore trace r
            ≤ (findBestMatchingRoute catalog startLocation endLocation trace).score) ∧
          (catalog ≠ [] → ∃ r ∈ catalog, routeScore trace r
            = (findBestMatchingRoute catalog startLocation endLocation trace).score)) := by
  obtain ⟨h0, hub, hpos, hlow⟩ :=
    findBestMatchingRoute_best catalog startLocation endLocation trace
  refine ⟨⟨?_, ?_⟩, ⟨rfl, rfl⟩, ?_⟩
  · intro hs
    by_contra hlt
    rw [hlow (not_le.mp hlt)] at hs
    exact absurd hs (by simp)
  · intro h60
    obtain ⟨r, _, hr⟩ := hpos (lt_of_lt_of_le (by norm_num) h60)
    rw [(hr h60).1]
    rfl
  · intro hlt
    refine ⟨hlow hlt, ?_, hub, ?_⟩
    · by_cases hne : catalog = []
      · subst hne
        rfl
      · rw [findBestMatchingRoute_of_ne_nil catalog startLocation endLocation trace hne]
        split_ifs <;> rfl
    · intro hne
      exact findBestMatchingRoute_score_attained catalog startLocation endLocation trace hne

/-- Witness for C5: a single point far from route A scores 0, below 60, and no route is
returned. -/
theorem findBestMatchingRoute_route_iff_witness :
    (findBestMatchingRoute [exampleRouteA] exampleLocation exampleLocation
        [gpsPoint 5 5]).route = none :=
  ((findBestMatchingRoute_route_iff [exampleRouteA] exampleLocation exampleLocation
      [gpsPoint 5 5]).2.2 (by decide!)).1

/-- C6: for a catalog that is not empty, the score returned by `findBestMatchingRoute` is
the maximum of the route scores (it bounds all of them and is attained), and a returned
route is the first route, in catalog order, whose score is that maximum. -/
theorem findBestMatchingRoute_max_first (catalog : List Route)
    (startLocation endLocation : GeoPoint) (trace : List GpsPoint) (h : catalog ≠ []) :
    (∀ r ∈ catalog, routeScore trace r
        ≤ (findBestMatchingRoute catalog startLocation endLocation trace).score)
      ∧ (∃ r ∈ catalog, routeScore trace r
          = (findBestMatchingRoute catalog startLocation endLocation trace).score)
      ∧ (∀ r, (findBestMatchingRoute catalog startLocation endLocation trace).route = some r →
          firstWithScore trace
            (findBestMatchingRoute catalog startLocation endLocation trace).score catalog
            = some r) := by
  obtain ⟨_, hub, hpos, hlow⟩ :=
    findBestMatchingRoute_best catalog startLocation endLocation trace
  refine ⟨hub, findBestMatchingRoute_score_attained catalog startLocation endLocation trace h, ?_⟩
  intro r hr
  by_cases h60 : 60 ≤ (findBestMatchingRoute catalog startLocation endLocation trace).score
  · obtain ⟨x, hx, hx2⟩ := hpos (lt_of_lt_of_le (by norm_num) h60)
    have hxr : some x = some r := by rw [← (hx2 h60).1, hr]
    rw [hx, hxr]
  · rw [hlow (not_le.mp h60)] at hr
    exact absurd hr (by simp)

/-- Witness for C6: routes A and B both score 100 on the trace (1, 1), (1, 2); A comes
first in the catalog and is the route returned. -/
theorem findBestMatchingRoute_max_first_witness :
    firstWithScore [gpsPoint 1 1, gpsPoint 1 2]
        (findBestMatchingRoute [exampleRouteA, exampleRouteB] exampleLocation exampleLocation
          [gpsPoint 1 1, gpsPoint 1 2]).score
        [exampleRouteA, exampleRouteB] = some exampleRouteA :=
  (findBestMatchingRoute_max_first [exampleRouteA, exampleRouteB] exampleLocation
      exampleLocation [gpsPoint 1 1, gpsPoint 1 2] (by simp)).2.2 exampleRouteA (by decide!)

theorem sortMatches_perm_sorted (l : List MatchDetails) :
    (sortMatches l).Perm l
      ∧ (sortMatches l).Pairwise (fun a b => a.totalScore ≥ b.totalScore) := by
  haveI : IsTotal MatchDetails (fun a b => a.totalScore ≥ b.totalScore) :=
    ⟨fun a b => le_total b.totalScore a.totalScore⟩
  haveI : IsTrans MatchDetails (fun a b => a.totalScore ≥ b.totalScore) :=
    ⟨fun _ _ _ hab hbc => le_trans hbc hab⟩
  exact ⟨List.perm_insertionSort _ l, List.sorted_insertionSort _ l⟩

/-- C10: for a catalog that is not empty, `findBestMatchingRoute` returns a ranked list,
whether or not a route is matched; it is a rearrangement of the match details of the
catalog routes, one per route, and its `totalScore` never increases along the list. -/
theorem findBestMatchingRoute_ranked (catalog : List Route)
    (startLocation endLocation : GeoPoint) (trace : List GpsPoint) (h : catalog ≠ []) :
    ∃ ranked,
      (findBestMatchingRoute catalog startLocation endLocation trace).allMatches = some ranked
        ∧ ranked.Perm (catalog.map (routeMatchDetails trace))
        ∧ ranked.length = catalog.length
        ∧ ranked.Pairwise (fun a b => a.totalScore ≥ b.totalScore) := by
  refine ⟨sortMatches (catalog.map (routeMatchDetails trace)), ?_,
    (sortMatches_perm_sorted _).1, ?_, (sortMatches_perm_sorted _).2⟩
  · rw [findBestMatchingRoute_of_ne_nil catalog startLocation endLocation trace h]
    split_ifs <;> rfl
  · rw [(sortMatches_perm_sorted _).1.length_eq, List.length_map]

/-- Witness for C10: the catalog A, B with a trace far from both (no route matched) still
yields a ranked list of two entries. -/
theorem findBestMatchingRoute_ranked_witness :
    ∃ ranked,
      (findBestMatchingRoute [exampleRouteA, exampleRouteB] exampleLocation exampleLocation
          [gpsPoint 5 5]).allMatches = some ranked
        ∧ ranked.Perm ([exampleRouteA, exampleRouteB].map (routeMatchDetails [gpsPoint 5 5]))
        ∧ ranked.length = [exampleRouteA, exampleRouteB].length
        ∧ ranked.Pairwise (fun a b => a.totalScore ≥ b.totalScore) :=
  findBestMatchingRoute_ranked [exampleRouteA, exampleRouteB] exampleLocation exampleLocation
    [gpsPoint 5 5] (by simp)

/-! ## findBestMatchingRoute: the sampling loop -/

theorem sampleBody_bounds (trace : List GpsPoint) (route : Route) (i acc : Nat) :
    acc ≤ sampleBody trace route i acc ∧ sampleBody trace route i acc ≤ acc + 1 := by
  unfold sampleBody
  split
  · exact ⟨le_refl _, Nat.le_succ _⟩
  · dsimp only
    split_ifs <;> exact ⟨by omega, by omega⟩

/-- The sampling loop is the left fold of its body over the sampled indices. -/
theorem sampleLoop_eq_foldl (trace : List GpsPoint) (route : Route) (step fuel i acc : Nat) :
    sampleLoop trace route step fuel i acc =
      (sampledIndicesFrom trace.length step fuel i).foldl
        (fun a j => sampleBody trace route j a) acc := by
  induction fuel generalizing i acc with
  | zero => rfl
  | succ fuel ih =>
    unfold sampleLoop sampledIndicesFrom
    split_ifs
    · rw [ih, List.foldl_cons]
    · rfl

/-- Enough fuel: with a step of at least 1, any fuel of at least the number of remaining
points gives the same sampled indices, so the loop always runs to its end. -/
theorem sampledIndicesFrom_fuel (n step : Nat) (hstep : 1 ≤ step) (fuel fuel2 i : Nat)
    (h1 : n - i ≤ fuel) (h2 : n - i ≤ fuel2) :
    sampledIndicesFrom n step fuel i = sampledIndicesFrom n step fuel2 i := by
  induction fuel generalizing fuel2 i with
  | zero =>
    have hi : ¬ i < n := by omega
    cases fuel2 with
    | zero => rfl
    | succ f => simp [sampledIndicesFrom, hi]
  | succ fuel ih =>
    cases fuel2 with
    | zero =>
      have hi : ¬ i < n := by omega
      simp [sampledIndicesFrom, hi]
    | succ f =>
      unfold sampledIndicesFrom
      split_ifs with hi
      · rw [ih f (i + step) (by omega) (by omega)]
      · rfl

theorem sampleStep_pos (n : Nat) : 1 ≤ sampleStep n := by
  unfold sampleStep
  exact le_max_left _ _

/-- The count `pointsInside` is the fold of the loop body over the sampled indices, and is
at most their number. -/
theorem pointsInside_le_sampled (trace : List GpsPoint) (route : Route) :
    pointsInside trace route =
        (sampledIndices trace.length).foldl (fun a j => sampleBody trace route j a) 0
      ∧ pointsInside trace route ≤ (sampledIndices trace.length).length := by
  have key : ∀ (l : List Nat) (acc : Nat),
      l.foldl (fun a j => sampleBody trace route j a) acc ≤ acc + l.length := by
    intro l
    induction l with
    | nil => intro acc; simp
    | cons j rest ih =>
      intro acc
      rw [List.foldl_cons, List.length_cons]
      have := ih (sampleBody trace route j acc)
      have := (sampleBody_bounds trace route j acc).2
      omega
  have e : pointsInside trace route =
      (sampledIndices trace.length).foldl (fun a j => sampleBody trace route j a) 0 := by
    unfold pointsInside sampledIndices
    rw [sampleLoop_eq_foldl]
  refine ⟨e, ?_⟩
  rw [e]
  have := key (sampledIndices trace.length) 0
  omega

/-- With a step of 1 the loop visits every index from `i` on. -/
theorem sampledIndicesFrom_step_one_length (n fuel i : Nat) (h : n - i ≤ fuel) :
    (sampledIndicesFrom n 1 fuel i).length = n - i := by
  induction fuel generalizing i with
  | zero =>
    simp only [sampledIndicesFrom, List.length_nil]
    omega
  | succ fuel ih =>
    unfold sampledIndicesFrom
    split_ifs with hi
    · rw [List.length_cons, ih (i + 1) (by omega)]
      omega
    · simp only [List.length_nil]
      omega

theorem sampledIndicesFrom_mem_lt (n step fuel i j : Nat)
    (h : j ∈ sampledIndicesFrom n step fuel i) : j < n := by
  induction fuel generalizing i with
  | zero => simp [sampledIndicesFrom] at h
  | succ fuel ih =>
    unfold sampledIndicesFrom at h
    split_ifs at h with hi
    · rcases List.mem_cons.mp h with rfl | h
      · exact hi
      · exact ih (i + step) h
    · simp at h

theorem sampleSize_of_le (n : Nat) (h : n ≤ 30) : sampleSize n = n := by
  unfold sampleSize
  exact min_eq_left h

theorem sampleStep_of_le (n : Nat) (h : n ≤ 30) : sampleStep n = 1 := by
  unfold sampleStep
  rw [sampleSize_of_le n h]
  rcases Nat.eq_zero_or_pos n with rfl | hpos
  · rfl
  · rw [Nat.div_self hpos]
    rfl

/-- For a trace of at most 30 points every point is sampled, so the ratio is at most 1 and
the score at most 100. -/
theorem routeScore_le_of_short (trace : List GpsPoint) (route : Route)
    (h : trace.length ≤ 30) :
    shapeMatchRatio trace route ≤ 1 ∧ routeScore trace route ≤ 100 := by
  have hp := (pointsInside_le_sampled trace route).2
  have hl : (sampledIndices trace.length).length = trace.length := by
    unfold sampledIndices
    rw [sampleStep_of_le _ h, sampledIndicesFrom_step_one_length _ _ _ (by omega)]
    omega
  rw [hl] at hp
  have hr : shapeMatchRatio trace route ≤ 1 := by
    unfold shapeMatchRatio
    rw [sampleSize_of_le _ h]
    split_ifs with hpos
    · rw [div_le_one (by exact_mod_cast hpos)]
      exact_mod_cast hp
    · norm_num
  refine ⟨hr, ?_⟩
  unfold routeScore
  linarith

/-- When every sampled point is counted, the count is the number of sampled indices. -/
theorem pointsInside_of_all_inside (trace : List GpsPoint) (route : Route)
    (h : ∀ j, j < trace.length → ∀ a, sampleBody trace route j a = a + 1) :
    pointsInside trace route = (sampledIndices trace.length).length := by
  have key : ∀ (l : List Nat) (acc : Nat), (∀ j ∈ l, j < trace.length) →
      l.foldl (fun a j => sampleBody trace route j a) acc = acc + l.length := by
    intro l
    induction l with
    | nil => intro acc _; simp
    | cons j rest ih =>
      intro acc hl
      rw [List.foldl_cons, List.length_cons, h j (hl j (List.mem_cons_self _ _)),
        ih (acc + 1) (fun x hx => hl x (List.mem_cons_of_mem _ hx))]
      omega
  rw [(pointsInside_le_sampled trace route).1,
    key (sampledIndices trace.length) 0
      (fun j hj => sampledIndicesFrom_mem_lt _ _ _ _ j hj)]
  omega

/-! ## Geometry: a vertex of the polyline is in the corridor -/

theorem pointToLineDistance_start (x1 y1 x2 y2 : ℚ) :
    (pointToLineDistance x1 y1 x1 y1 x2 y2).radicand = 0 := by
  by_cases h : (x2 - x1) * (x2 - x1) + (y2 - y1) * (y2 - y1) = 0
  · simp [pointToLineDistance, h]
  · simp [pointToLineDistance, h]
    norm_num

theorem pointToLineDistance_end (x1 y1 x2 y2 : ℚ) :
    (pointToLineDistance x2 y2 x1 y1 x2 y2).radicand = 0 := by
  by_cases h : (x2 - x1) * (x2 - x1) + (y2 - y1) * (y2 - y1) = 0
  · obtain ⟨hx, hy⟩ := (mul_self_add_mul_self_eq_zero).mp h
    have ex : x2 = x1 := by linarith
    have ey : y2 = y1 := by linarith
    subst ex ey
    simp [pointToLineDistance]
  · simp [pointToLineDistance, h]
    norm_num

theorem minMeters_le (acc : Option Meters) (d : Meters) :
    ∃ m, minMeters acc d = some m ∧ m.radicand ≤ d.radicand ∧
      ∀ a, acc = some a → m.radicand ≤ a.radicand := by
  cases acc with
  | none => exact ⟨d, rfl, le_refl _, fun a h => by simp at h⟩
  | some a0 =>
    by_cases h : d.radicand < a0.radicand
    · refine ⟨d, by simp [minMeters, h], le_refl _, ?_⟩
      intro a ha
      cases ha
      exact le_of_lt h
    · refine ⟨a0, by simp [minMeters, h], not_lt.mp h, ?_⟩
      intro a ha
      cases ha
      exact le_refl _

theorem corridorLoop_keeps (px py : ℚ) (poly : List PolyPoint) (a : Meters)
    (h : a.radicand ≤ 0) :
    ∃ m, corridorLoop px py poly (some a) = some m ∧ m.radicand ≤ 0 := by
  induction poly generalizing a with
  | nil => exact ⟨a, rfl, h⟩
  | cons p1 tl ih =>
    cases tl with
    | nil => exact ⟨a, rfl, h⟩
    | cons p2 rest =>
      rw [corridorLoop]
      obtain ⟨m, hm, _, hm2⟩ :=
        minMeters_le (some a) (pointToLineDistance px py p1.lat p1.lon p2.lat p2.lon)
      rw [hm]
      exact ih m (le_trans (hm2 a rfl) h)

theorem corridorLoop_vertex (poly : List PolyPoint) (acc : Option Meters) (p : PolyPoint)
    (hp : p ∈ poly) (hlen : 2 ≤ poly.length) :
    ∃ m, corridorLoop p.lat p.lon poly acc = some m ∧ m.radicand ≤ 0 := by
  induction poly generalizing acc with
  | nil => simp at hlen
  | cons p1 tl ih =>
    cases tl with
    | nil => simp at hlen
    | cons p2 rest =>
      rw [corridorLoop]
      obtain ⟨m, hm, hm1, _⟩ :=
        minMeters_le acc (pointToLineDistance p.lat p.lon p1.lat p1.lon p2.lat p2.lon)
      rw [hm]
      rcases List.mem_cons.mp hp with rfl | hp2
      · rw [pointToLineDistance_start] at hm1
        exact corridorLoop_keeps _ _ _ m hm1
      · rcases List.mem_cons.mp hp2 with rfl | hp3
        · rw [pointToLineDistance_end] at hm1
          exact corridorLoop_keeps _ _ _ m hm1
        · cases rest with
          | nil => simp at hp3
          | cons p3 rest2 =>
            exact ih (some m) (List.mem_cons_of_mem _ hp3) (by simp)

/-- A vertex of a polyline of at least two points is in the corridor of that polyline for
every buffer that is not negative. -/
theorem isPointInCorridor_vertex (poly : List PolyPoint) (p : PolyPoint) (bufferMeters : ℚ)
    (hp : p ∈ poly) (hlen : 2 ≤ poly.length) (hb : 0 ≤ bufferMeters) :
    isPointInCorridor { latitude := some p.lat, longitude := some p.lon } poly bufferMeters
      = true := by
  obtain ⟨m, hm, hm0⟩ := corridorLoop_vertex poly none p hp hlen
  have h2 : m.radicand * degreeToMeters ^ 2 ≤ bufferMeters ^ 2 := by
    have : m.radicand * degreeToMeters ^ 2 ≤ 0 :=
      mul_nonpos_of_nonpos_of_nonneg hm0 (sq_nonneg _)
    exact le_trans this (sq_nonneg _)
  simp [isPointInCorridor, hm, Meters.leBuffer, hb, h2]

theorem sampleBody_own_polyline (route : Route)
    (hlen : 2 ≤ route.approvedRoutes0.polyline.length)
    (hnz : ∀ p ∈ route.approvedRoutes0.polyline, p.lat ≠ 0 ∧ p.lon ≠ 0)
    (hbuf : 0 ≤ route.verification.corridorBuffer_m) (j : Nat)
    (hj : j < (traceOfPolyline route.approvedRoutes0.polyline).length) (a : Nat) :
    sampleBody (traceOfPolyline route.approvedRoutes0.polyline) route j a = a + 1 := by
  have hj2 : j < route.approvedRoutes0.polyline.length := by
    simpa [traceOfPolyline] using hj
  have hget : (traceOfPolyline route.approvedRoutes0.polyline)[j]? =
      some { latitude := some (route.approvedRoutes0.polyline[j]).lat,
             longitude := some (route.approvedRoutes0.polyline[j]).lon,
             lat := none, lon := none } := by
    simp [traceOfPolyline, List.getElem?_map, List.getElem?_eq_getElem hj2]
  have hmem : route.approvedRoutes0.polyline[j] ∈ route.approvedRoutes0.polyline :=
    List.getElem_mem hj2
  obtain ⟨h1, h2⟩ := hnz _ hmem
  have hin := isPointInCorridor_vertex route.approvedRoutes0.polyline
    (route.approvedRoutes0.polyline[j]) (route.verification.corridorBuffer_m * (5 / 2))
    hmem hlen (by positivity)
  unfold sampleBody
  rw [hget]
  simp [jsOr, truthy, h1, h2, hin]

/-! ## findBestMatchingRoute: scores of single routes -/

/-- C7 fails on the code, at the example of the claim itself: for a trip of 50 points, 45
of them in the corridor of route A, the sample size is 30 but the step is 1, all 50 points
are tested, and the match details carry the ratio 45/30 = 3/2 and the total score 150. -/
theorem routeMatchDetails_over_100 :
    exampleTrace50.length = 50
      ∧ sampleSize exampleTrace50.length = 30
      ∧ sampleStep exampleTrace50.length = 1
      ∧ pointsInside exampleTrace50 exampleRouteA = 45
      ∧ (routeMatchDetails exampleTrace50 exampleRouteA).shapeMatchRatio = 3 / 2
      ∧ (routeMatchDetails exampleTrace50 exampleRouteA).totalScore = 150 := by
  decide!

/-- C8 fails on the code: for a trace of 31 points the sample size is 30 and the step is
`max 1 (floor (31 / 30)) = 1`, so the loop visits all 31 indices; with every point valid
and in the corridor of route A, 31 corridor tests succeed. -/
theorem sampledIndices_over_30 :
    sampleSize 31 = 30
      ∧ sampleStep 31 = 1
      ∧ sampledIndices 31 = List.range 31
      ∧ (sampledIndices 31).length = 31
      ∧ exampleTrace31.length = 31
      ∧ pointsInside exampleTrace31 exampleRouteA = 31 := by
  decide!

theorem sampledIndices_length_of_le (n : Nat) (h : n ≤ 30) :
    (sampledIndices n).length = n := by
  unfold sampledIndices
  rw [sampleStep_of_le n h, sampledIndicesFrom_step_one_length n n 0 (by omega)]
  omega

theorem firstWithScore_append_cons (trace : List GpsPoint) (s : ℚ) (pre post : List Route)
    (route : Route) (hpre : ∀ c ∈ pre, routeScore trace c ≠ s)
    (hroute : routeScore trace route = s) :
    firstWithScore trace s (pre ++ route :: post) = some route := by
  induction pre with
  | nil => exact firstWithScore_cons_eq trace s route post hroute
  | cons c rest ih =>
    rw [List.cons_append,
      firstWithScore_cons_ne trace s c _ (hpre c (List.mem_cons_self _ _))]
    exact ih (fun x hx => hpre x (List.mem_cons_of_mem _ hx))

/-- C9, as stated, fails: route A is in the catalog after route L, whose polyline starts
with the segment of A. The trace equal to the polyline of A lies in both corridors, both
routes score 100, and the earlier route L is returned instead of A. -/
theorem findBestMatchingRoute_own_polyline_earlier_wins :
    exampleRouteA ∈ [exampleRouteLong, exampleRouteA]
      ∧ 2 ≤ exampleRouteA.approvedRoutes0.polyline.length
      ∧ (∀ p ∈ exampleRouteA.approvedRoutes0.polyline, p.lat ≠ 0 ∧ p.lon ≠ 0)
      ∧ 0 < exampleRouteA.verification.corridorBuffer_m
      ∧ (findBestMatchingRoute [exampleRouteLong, exampleRouteA] exampleLocation
          exampleLocation (traceOfPolyline exampleRouteA.approvedRoutes0.polyline)).score = 100
      ∧ (findBestMatchingRoute [exampleRouteLong, exampleRouteA] exampleLocation
          exampleLocation (traceOfPolyline exampleRouteA.approvedRoutes0.polyline)).route
          = some exampleRouteLong
      ∧ (findBestMatchingRoute [exampleRouteLong, exampleRouteA] exampleLocation
          exampleLocation (traceOfPolyline exampleRouteA.approvedRoutes0.polyline)).route
          ≠ some exampleRouteA := by
  decide!

/-- C9, amended: for a route of the catalog whose polyline has between 2 and 30 points, all
with non-zero coordinates, and whose corridor buffer is positive, the trace equal to that
polyline gives the route the ratio 1, and `findBestMatchingRoute` returns the score 100
and the first route of the catalog that scores 100: the route itself when no route before
it in the catalog scores 100. -/
theorem findBestMatchingRoute_own_polyline (catalog : List Route) (route : Route)
    (startLocation endLocation : GeoPoint) (hmem : route ∈ catalog)
    (hlen : 2 ≤ route.approvedRoutes0.polyline.length)
    (hshort : route.approvedRoutes0.polyline.length ≤ 30)
    (hnz : ∀ p ∈ route.approvedRoutes0.polyline, p.lat ≠ 0 ∧ p.lon ≠ 0)
    (hbuf : 0 < route.verification.corridorBuffer_m) :
    shapeMatchRatio (traceOfPolyline route.approvedRoutes0.polyline) route = 1
      ∧ (findBestMatchingRoute catalog startLocation endLocation
          (traceOfPolyline route.approvedRoutes0.polyline)).score = 100
      ∧ (findBestMatchingRoute catalog startLocation endLocation
          (traceOfPolyline route.approvedRoutes0.polyline)).route
          = firstWithScore (traceOfPolyline route.approvedRoutes0.polyline) 100 catalog
      ∧ (∃ first ∈ catalog,
          (findBestMatchingRoute catalog startLocation endLocation
            (traceOfPolyline route.approvedRoutes0.polyline)).route = some first)
      ∧ (∀ pre post, catalog = pre ++ route :: post →
          (∀ c ∈ pre, routeScore (traceOfPolyline route.approvedRoutes0.polyline) c ≠ 100) →
          (findBestMatchingRoute catalog startLocation endLocation
            (traceOfPolyline route.approvedRoutes0.polyline)).route = some route) := by
  have hT : (traceOfPolyline route.approvedRoutes0.polyline).length
      = route.approvedRoutes0.polyline.length := by
    simp [traceOfPolyline]
  have hT30 : (traceOfPolyline route.approvedRoutes0.polyline).length ≤ 30 := by
    rw [hT]; exact hshort
  have hpi : pointsInside (traceOfPolyline route.approvedRoutes0.polyline) route
      = (traceOfPolyline route.approvedRoutes0.polyline).length := by
    rw [pointsInside_of_all_inside _ route
      (sampleBody_own_polyline route hlen hnz (le_of_lt hbuf)),
      sampledIndices_length_of_le _ hT30]
  have hratio : shapeMatchRatio (traceOfPolyline route.approvedRoutes0.polyline) route = 1 := by
    unfold shapeMatchRatio
    rw [sampleSize_of_le _ hT30, hpi, hT]
    have hpos : route.approvedRoutes0.polyline.length > 0 := by omega
    rw [if_pos hpos]
    exact div_self (by exact_mod_cast (Nat.pos_iff_ne_zero.mp hpos))
  have hscore : routeScore (traceOfPolyline route.approvedRoutes0.polyline) route = 100 := by
    unfold routeScore
    rw [hratio]
    norm_num
  obtain ⟨_, hub, hpos, _⟩ := findBestMatchingRoute_best catalog startLocation endLocation
    (traceOfPolyline route.approvedRoutes0.polyline)
  have hne : catalog ≠ [] := List.ne_nil_of_mem hmem
  obtain ⟨c, _, hc⟩ := findBestMatchingRoute_score_attained catalog startLocation endLocation
    (traceOfPolyline route.approvedRoutes0.polyline) hne
  have hres : (findBestMatchingRoute catalog startLocation endLocation
      (traceOfPolyline route.approvedRoutes0.polyline)).score = 100 := by
    apply le_antisymm
    · rw [← hc]
      exact (routeScore_le_of_short _ c hT30).2
    · rw [← hscore]
      exact hub route hmem
  rw [hres] at hpos
  obtain ⟨x, hx, hx2⟩ := hpos (by norm_num)
  obtain ⟨hroute, _⟩ := hx2 (by norm_num)
  refine ⟨hratio, hres, by rw [hroute, hx], ⟨x, (firstWithScore_some _ _ _ x hx).1, hroute⟩, ?_⟩
  intro pre post hcat hpre
  rw [hroute, ← hx, hcat]
  exact firstWithScore_append_cons _ 100 pre post route hpre hscore

/-- Witness for the amended C9: with route A alone in the catalog, the trace equal to its
polyline returns route A. -/
theorem findBestMatchingRoute_own_polyline_witness :
    (findBestMatchingRoute [exampleRouteA] exampleLocation exampleLocation
        (traceOfPolyline exampleRouteA.approvedRoutes0.polyline)).route = some exampleRouteA :=
  (findBestMatchingRoute_own_polyline [exampleRouteA] exampleRouteA exampleLocation
    exampleLocation (by simp) (by decide) (by decide) (by decide!) (by decide!)).2.2.2.2
    [] [] rfl (by simp)

/-! ## Binary64 arithmetic: basic facts -/

theorem roundDouble_zero : roundDouble 0 = JSNum.num 0 := by
  simp [roundDouble]

/-- Known binary64 values: the literals 0.1 and 0.9, a tie between two neighbours that goes
to the even one, the smallest positive number, whose half rounds to 0, and the overflow
threshold. -/
theorem roundDouble_known_values :
    roundDouble (1 / 10) = JSNum.num (3602879701896397 / 36028797018963968)
      ∧ roundDouble (9 / 10) = JSNum.num (8106479329266893 / 9007199254740992)
      ∧ roundDouble (2 ^ 53 + 1) = JSNum.num (2 ^ 53)
      ∧ roundDouble (2 ^ 53 + 3) = JSNum.num (2 ^ 53 + 4)
      ∧ roundDouble (pow2 (-1074)) = JSNum.num (pow2 (-1074))
      ∧ roundDouble (pow2 (-1075)) = JSNum.num 0
      ∧ roundDouble (pow2 1024 - pow2 970 - 1) = JSNum.num (pow2 1024 - pow2 971)
      ∧ roundDouble (pow2 1024 - pow2 970) = JSNum.posInf := by
  decide!

theorem roundDouble_ne_nan (q : ℚ) : roundDouble q ≠ JSNum.nan := by
  unfold roundDouble
  generalize roundMagnitude (if q < 0 then -q else q) = r
  split_ifs <;> simp

theorem roundDouble_of_nonneg (q : ℚ) (h : 0 ≤ q) :
    (∃ r, roundDouble q = JSNum.num r) ∨ roundDouble q = JSNum.posInf := by
  unfold roundDouble
  generalize roundMagnitude (if q < 0 then -q else q) = r
  by_cases h0 : q = 0
  · exact Or.inl ⟨0, by simp [h0]⟩
  · have hpos : q > 0 := lt_of_le_of_ne h (Ne.symm h0)
    by_cases hbig : r ≥ pow2 1024
    · exact Or.inr (by simp [h0, hbig, hpos])
    · exact Or.inl ⟨r, by simp [h0, hbig, hpos]⟩

theorem JSNum.ofNat_zero : (0 : JSNum) = JSNum.num 0 := by
  show JSNum.num ((0 : Nat) : ℚ) = JSNum.num 0
  rw [Nat.cast_zero]

theorem jsMul_zero_left (b : ℚ) : jsMul 0 b = 0 := by
  rw [JSNum.ofNat_zero, jsMul, zero_mul, roundDouble_zero]

theorem JSNum.ge_and_le_iff (x : JSNum) (a b : ℚ) :
    (x.ge a && x.le b) = true ↔ ∃ q, x = JSNum.num q ∧ a ≤ q ∧ q ≤ b := by
  cases x <;> simp [JSNum.ge, JSNum.le]

/-! ## verifyRoute and verifyDistance: properties -/

theorem routeScore_empty_trace (route : Route) : routeScore [] route = 0 := by
  simp [routeScore, shapeMatchRatio, sampleSize]

/-- C11, as stated, fails: on the empty trace `verifyRoute` returns an `insideRatio` that
is `NaN`, not 0, for route A. -/
theorem verifyRoute_empty_trace_nan :
    (verifyRoute [] exampleRouteA.approvedRoutes0 exampleRouteA.verification).insideRatio
        = JSNum.nan
      ∧ (verifyRoute [] exampleRouteA.approvedRoutes0 exampleRouteA.verification).insideRatio
        ≠ JSNum.num 0 := by
  decide!

/-- C11, amended: for an empty trace `verifyRoute` raises no error and divides 0 by 0
without a guard, so `insideRatio` is `NaN` and `passed` is false, whatever the route and
the configuration; and `findBestMatchingRoute` returns no route for an empty trace, so
`verifyTrip`, which calls `verifyRoute` only after a match, never calls it on one. -/
theorem verifyRoute_empty_trace (approvedRoute : ApprovedRoute)
    (verificationConfig : VerificationConfig) (catalog : List Route)
    (startLocation endLocation : GeoPoint) :
    verifyRoute [] approvedRoute verificationConfig =
        { passed := false, insideRatio := JSNum.nan, pointsInside := 0, totalPoints := 0,
          bufferUsed := verificationConfig.corridorBuffer_m }
      ∧ (findBestMatchingRoute catalog startLocation endLocation []).route = none := by
  refine ⟨?_, ?_⟩
  · simp [verifyRoute, verifyRouteLoop, jsDiv, JSNum.ge]
  · obtain ⟨_, _, hpos, hlow⟩ :=
      findBestMatchingRoute_best catalog startLocation endLocation []
    apply hlow
    by_contra hge
    have h60 : 60 ≤ (findBestMatchingRoute catalog startLocation endLocation []).score :=
      not_lt.mp hge
    obtain ⟨r, hr, _⟩ := hpos (lt_of_lt_of_le (by norm_num) h60)
    have hs := (firstWithScore_some [] _ catalog r hr).2
    rw [routeScore_empty_trace] at hs
    rw [← hs] at h60
    norm_num at h60

/-- C12, as stated, fails: with a traveled distance of 1 and an expected distance of 0,
`verifyDistance` returns a check object, with ratio `Infinity` and `passed` false; no error
is raised. -/
theorem verifyDistance_zero_expected_returns :
    verifyDistance 1 0 exampleRouteA.verification =
      Except.ok { passed := false, ratio := JSNum.posInf, traveledDistance := 1,
                  expectedDistance := 0, minAllowed := 0, maxAllowed := 0 } := by
  simp [verifyDistance, jsDiv, JSNum.ge, JSNum.le, jsMul_zero_left]

/-- C12, amended: for every traveled distance and configuration, `verifyDistance` with an
expected distance of 0 raises no error; it returns a check object whose ratio is
`Infinity`, `-Infinity` or `NaN` (for a positive, negative or zero traveled distance), whose
`passed` is false and whose allowed range is [0, 0]. -/
theorem verifyDistance_zero_expected (traveledDistance : ℚ) (config : VerificationConfig) :
    ∃ r, verifyDistance traveledDistance 0 config = Except.ok r
      ∧ r.ratio = (if traveledDistance > 0 then JSNum.posInf
          else if traveledDistance < 0 then JSNum.negInf else JSNum.nan)
      ∧ r.passed = false
      ∧ r.minAllowed = 0 ∧ r.maxAllowed = 0 := by
  refine ⟨_, rfl, ?_, ?_, ?_, ?_⟩
  · simp [jsDiv]
  · by_cases hp : traveledDistance > 0
    · simp [jsDiv, hp, JSNum.ge, JSNum.le]
    · by_cases hn : traveledDistance < 0
      · simp [jsDiv, hp, hn, JSNum.ge, JSNum.le]
      · simp [jsDiv, hp, hn, JSNum.ge, JSNum.le]
  · exact jsMul_zero_left _
  · exact jsMul_zero_left _

/-- C13, as stated, fails in binary64. For `verifyDistance(0.9, 0.75, ...)` with the ratios
0.8 and 1.2 the quotient rounds to 1.2 and `passed` is true, while the reported
`maxAllowed` is 0.8999999999999999, below the traveled 0.9. For
`verifyDistance(1.16, 1.45, ...)` the quotient rounds below 0.8 and `passed` is false, while
the reported `minAllowed` is 1.16, the traveled distance itself. -/
theorem verifyDistance_range_differs :
    verifyDistance (double (9 / 10)) (3 / 4) exampleConfigDouble =
        Except.ok { passed := true, ratio := JSNum.num (double (6 / 5)),
                    traveledDistance := double (9 / 10), expectedDistance := 3 / 4,
                    minAllowed := JSNum.num (5404319552844596 / 9007199254740992),
                    maxAllowed := JSNum.num (2026619832316723 / 2251799813685248) }
      ∧ (2026619832316723 / 2251799813685248 : ℚ) < double (9 / 10)
      ∧ verifyDistance (double (116 / 100)) (double (145 / 100)) exampleConfigDouble =
        Except.ok { passed := false,
                    ratio := JSNum.num (7205759403792793 / 9007199254740992),
                    traveledDistance := double (116 / 100),
                    expectedDistance := double (145 / 100),
                    minAllowed := JSNum.num (double (116 / 100)),
                    maxAllowed := JSNum.num (7836263351624663 / 4503599627370496) }
      ∧ (7205759403792793 / 9007199254740992 : ℚ) < double (4 / 5) := by
  refine ⟨?_, by decide!, ?_, by decide!⟩
  · show Except.ok _ = Except.ok _
    congr 1
    decide!
  · show Except.ok _ = Except.ok _
    congr 1
    decide!

/-- C13, amended: for a positive expected distance, `verifyDistance` returns the ratio
traveled / expected rounded to binary64; `passed` holds exactly when that ratio is a
number between the two configured ratios; the reported range is
[expected * distanceRatioMin, expected * distanceRatioMax] with each product rounded to
binary64; and when the quotient and the two products are exact, `passed` holds exactly
when the traveled distance lies in the reported range. -/
theorem verifyDistance_ratio_passed (traveledDistance expectedDistance : ℚ)
    (config : VerificationConfig) (h : 0 < expectedDistance) :
    ∃ r, verifyDistance traveledDistance expectedDistance config = Except.ok r
      ∧ r.ratio = roundDouble (traveledDistance / expectedDistance)
      ∧ (r.passed = true ↔
          ∃ q, r.ratio = JSNum.num q ∧ config.distanceRatioMin ≤ q ∧
            q ≤ config.distanceRatioMax)
      ∧ r.minAllowed = roundDouble (expectedDistance * config.distanceRatioMin)
      ∧ r.maxAllowed = roundDouble (expectedDistance * config.distanceRatioMax)
      ∧ (roundDouble (traveledDistance / expectedDistance)
            = JSNum.num (traveledDistance / expectedDistance) →
          roundDouble (expectedDistance * config.distanceRatioMin)
            = JSNum.num (expectedDistance * config.distanceRatioMin) →
          roundDouble (expectedDistance * config.distanceRatioMax)
            = JSNum.num (expectedDistance * config.distanceRatioMax) →
          (r.passed = true ↔
            r.minAllowed.le traveledDistance = true ∧
              r.maxAllowed.ge traveledDistance = true)) := by
  have hne : expectedDistance ≠ 0 := ne_of_gt h
  have hratio : jsDiv traveledDistance expectedDistance
      = roundDouble (traveledDistance / expectedDistance) := by
    simp [jsDiv, hne]
  refine ⟨_, rfl, hratio, JSNum.ge_and_le_iff _ _ _, rfl, rfl, ?_⟩
  intro e1 e2 e3
  show ((jsDiv traveledDistance expectedDistance).ge config.distanceRatioMin
      && (jsDiv traveledDistance expectedDistance).le config.distanceRatioMax) = true ↔
    (jsMul expectedDistance config.distanceRatioMin).le traveledDistance = true ∧
      (jsMul expectedDistance config.distanceRatioMax).ge traveledDistance = true
  rw [hratio, e1]
  unfold jsMul
  rw [e2, e3]
  simp only [JSNum.ge, JSNum.le, Bool.and_eq_true, decide_eq_true_eq, ge_iff_le]
  rw [le_div_iff₀ h, div_le_iff₀ h, mul_comm config.distanceRatioMin,
    mul_comm config.distanceRatioMax]

/-- Witness for the amended C13: 1 traveled against 2 expected under the ratios 1/2 and
3/2 gives the exact ratio 1/2 and the exact range [1, 3], and `passed` agrees with the
range. -/
theorem verifyDistance_ratio_passed_witness :
    ∃ r, verifyDistance 1 2 exampleConfigDyadic = Except.ok r
      ∧ r.ratio = roundDouble (1 / 2)
      ∧ (r.passed = true ↔ r.minAllowed.le 1 = true ∧ r.maxAllowed.ge 1 = true) :=
  (verifyDistance_ratio_passed 1 2 exampleConfigDyadic (by norm_num)).elim
    fun r h => ⟨r, h.1, h.2.1, h.2.2.2.2.2 (by decide!) (by decide!) (by decide!)⟩

/-- C16 fails on the code: `verifyRoute` has no skip. A one-point trace on route A passes
with ratio 1. Appending a point without coordinates leaves `pointsInside` at 1 but raises
`totalPoints` to 2, so the ratio drops to 1/2 and `passed` becomes false; the same happens
for a point stored under the `lat`/`lon` naming, whose `latitude` and `longitude` are
undefined. -/
theorem verifyRoute_missing_coordinates_counted :
    verifyRoute [gpsPoint 1 1] exampleRouteA.approvedRoutes0 exampleRouteA.verification =
        { passed := true, insideRatio := JSNum.num 1, pointsInside := 1, totalPoints := 1,
          bufferUsed := 25 }
      ∧ verifyRoute [gpsPoint 1 1, gpsPointMissing] exampleRouteA.approvedRoutes0
          exampleRouteA.verification =
        { passed := false, insideRatio := JSNum.num (1 / 2), pointsInside := 1,
          totalPoints := 2, bufferUsed := 25 }
      ∧ verifyRoute [gpsPoint 1 1, gpsPointLatLon 1 (3 / 2)] exampleRouteA.approvedRoutes0
          exampleRouteA.verification =
        { passed := false, insideRatio := JSNum.num (1 / 2), pointsInside := 1,
          totalPoints := 2, bufferUsed := 25 } := by
  decide!

/-! ## pointToLineDistance and isPointInCorridor: properties -/

theorem pointToLineDistance_radicand (px py x1 y1 x2 y2 : ℚ) :
    (pointToLineDistance px py x1 y1 x2 y2).radicand =
      (px - (if projectionParam px py x1 y1 x2 y2 < 0 then x1
              else if projectionParam px py x1 y1 x2 y2 > 1 then x2
              else x1 + projectionParam px py x1 y1 x2 y2 * (x2 - x1)))
        * (px - (if projectionParam px py x1 y1 x2 y2 < 0 then x1
              else if projectionParam px py x1 y1 x2 y2 > 1 then x2
              else x1 + projectionParam px py x1 y1 x2 y2 * (x2 - x1)))
      + (py - (if projectionParam px py x1 y1 x2 y2 < 0 then y1
              else if projectionParam px py x1 y1 x2 y2 > 1 then y2
              else y1 + projectionParam px py x1 y1 x2 y2 * (y2 - y1)))
        * (py - (if projectionParam px py x1 y1 x2 y2 < 0 then y1
              else if projectionParam px py x1 y1 x2 y2 > 1 then y2
              else y1 + projectionParam px py x1 y1 x2 y2 * (y2 - y1))) :=
  rfl

theorem planarDistSq_sub (px py x1 y1 x2 y2 : ℚ) :
    planarDistSq px py x2 y2 - planarDistSq px py x1 y1 =
      ((x2 - x1) * (x2 - x1) + (y2 - y1) * (y2 - y1))
        - 2 * ((px - x1) * (x2 - x1) + (py - y1) * (y2 - y1)) := by
  unfold planarDistSq
  ring

/-- Without rounding, `pointToLineDistance` returns 0 for a point `start + t (end - start)`
with `t` in [0, 1]; when the projection parameter is below 0 it returns 111000 times the
planar distance to the start, and when it is above 1, 111000 times the planar distance to
the end; in both cases that endpoint is the nearer one. -/
theorem pointToLineDistance_exact_cases (px py x1 y1 x2 y2 : ℚ) :
    (∀ t : ℚ, 0 ≤ t → t ≤ 1 → px = x1 + t * (x2 - x1) → py = y1 + t * (y2 - y1) →
        (pointToLineDistance px py x1 y1 x2 y2).radicand = 0 ∧
        (pointToLineDistance px py x1 y1 x2 y2).HasValue 0)
      ∧ (projectionParam px py x1 y1 x2 y2 < 0 →
          (pointToLineDistance px py x1 y1 x2 y2).radicand = planarDistSq px py x1 y1 ∧
          (pointToLineDistance px py x1 y1 x2 y2).HasValue
            (111000 * Real.sqrt ((planarDistSq px py x1 y1 : ℚ) : ℝ)) ∧
          planarDistSq px py x1 y1 ≤ planarDistSq px py x2 y2)
      ∧ (1 < projectionParam px py x1 y1 x2 y2 →
          (pointToLineDistance px py x1 y1 x2 y2).radicand = planarDistSq px py x2 y2 ∧
          (pointToLineDistance px py x1 y1 x2 y2).HasValue
            (111000 * Real.sqrt ((planarDistSq px py x2 y2 : ℚ) : ℝ)) ∧
          planarDistSq px py x2 y2 ≤ planarDistSq px py x1 y1) := by
  refine ⟨?_, ?_, ?_⟩
  · intro t ht0 ht1 hx hy
    have hrad : (pointToLineDistance px py x1 y1 x2 y2).radicand = 0 := by
      subst hx hy
      by_cases hlen : (x2 - x1) * (x2 - x1) + (y2 - y1) * (y2 - y1) = 0
      · obtain ⟨hc, hd⟩ := (mul_self_add_mul_self_eq_zero).mp hlen
        have hp : projectionParam (x1 + t * (x2 - x1)) (y1 + t * (y2 - y1)) x1 y1 x2 y2
            = -1 := by
          simp [projectionParam, hlen]
        rw [pointToLineDistance_radicand, hp, hc, hd]
        norm_num
      · have hp : projectionParam (x1 + t * (x2 - x1)) (y1 + t * (y2 - y1)) x1 y1 x2 y2
            = t := by
          simp only [projectionParam, ne_eq, hlen, not_false_eq_true, if_true]
          rw [div_eq_iff hlen]
          ring
        rw [pointToLineDistance_radicand, hp]
        simp only [if_neg (not_lt.mpr ht0), if_neg (not_lt.mpr ht1)]
        ring
    refine ⟨hrad, ?_⟩
    unfold Meters.HasValue
    rw [hrad]
    simp
  · intro hp
    have hrad : (pointToLineDistance px py x1 y1 x2 y2).radicand
        = planarDistSq px py x1 y1 := by
      rw [pointToLineDistance_radicand]
      simp only [if_pos hp]
      unfold planarDistSq
      ring
    refine ⟨hrad, ?_, ?_⟩
    · unfold Meters.HasValue
      rw [hrad, mul_comm]
    · have hsub := planarDistSq_sub px py x1 y1 x2 y2
      by_cases hlen : (x2 - x1) * (x2 - x1) + (y2 - y1) * (y2 - y1) = 0
      · obtain ⟨hc, hd⟩ := (mul_self_add_mul_self_eq_zero).mp hlen
        rw [hc, hd] at hsub
        linarith
      · have hpos : 0 < (x2 - x1) * (x2 - x1) + (y2 - y1) * (y2 - y1) :=
          lt_of_le_of_ne (add_nonneg (mul_self_nonneg _) (mul_self_nonneg _)) (Ne.symm hlen)
        simp only [projectionParam, ne_eq, hlen, not_false_eq_true, if_true] at hp
        have hdot : (px - x1) * (x2 - x1) + (py - y1) * (y2 - y1) < 0 := by
          rcases div_neg_iff.mp hp with ⟨_, h2⟩ | ⟨h1, _⟩
          · exact absurd hpos (not_lt.mpr (le_of_lt h2))
          · exact h1
        linarith
  · intro hp
    have hnot : ¬ projectionParam px py x1 y1 x2 y2 < 0 := by
      intro h0
      linarith
    have hrad : (pointToLineDistance px py x1 y1 x2 y2).radicand
        = planarDistSq px py x2 y2 := by
      rw [pointToLineDistance_radicand]
      simp only [if_neg hnot, if_pos hp]
      unfold planarDistSq
      ring
    refine ⟨hrad, ?_, ?_⟩
    · unfold Meters.HasValue
      rw [hrad, mul_comm]
    · have hsub := planarDistSq_sub px py x1 y1 x2 y2
      by_cases hlen : (x2 - x1) * (x2 - x1) + (y2 - y1) * (y2 - y1) = 0
      · simp [projectionParam, hlen] at hp
        linarith
      · have hpos : 0 < (x2 - x1) * (x2 - x1) + (y2 - y1) * (y2 - y1) :=
          lt_of_le_of_ne (add_nonneg (mul_self_nonneg _) (mul_self_nonneg _)) (Ne.symm hlen)
        simp only [projectionParam, ne_eq, hlen, not_false_eq_true, if_true] at hp
        have hdot := (one_lt_div hpos).mp hp
        linarith

theorem JSNum.sub_self_num (a : ℚ) : (JSNum.num a).sub (JSNum.num a) = JSNum.num 0 := by
  simp [JSNum.sub, JSNum.neg, JSNum.add, roundDouble_zero]

theorem JSNum.zero_mul_num (c : ℚ) : (JSNum.num 0).mul (JSNum.num c) = JSNum.num 0 := by
  simp [JSNum.mul, roundDouble_zero]

theorem JSNum.zero_add_zero : (JSNum.num 0).add (JSNum.num 0) = JSNum.num 0 := by
  simp [JSNum.add, roundDouble_zero]

theorem JSNum.add_num_zero (a : ℚ) (h : roundDouble a = JSNum.num a) :
    (JSNum.num a).add (JSNum.num 0) = JSNum.num a := by
  simp [JSNum.add, h]

/-- The sum of two binary64 squares is not `NaN`. -/
theorem JSNum.add_squares_ne_nan (c d : ℚ) :
    ((JSNum.num c).mul (JSNum.num c)).add ((JSNum.num d).mul (JSNum.num d)) ≠ JSNum.nan := by
  have hc := roundDouble_of_nonneg (c * c) (mul_self_nonneg c)
  have hd := roundDouble_of_nonneg (d * d) (mul_self_nonneg d)
  simp only [JSNum.mul]
  rcases hc with ⟨r1, h1⟩ | h1 <;> rcases hd with ⟨r2, h2⟩ | h2 <;> rw [h1, h2]
  · simp only [JSNum.add]
    exact roundDouble_ne_nan _
  · simp [JSNum.add]
  · simp [JSNum.add]
  · simp [JSNum.add]

/-- With a dot product of 0 the projection parameter is 0, or -1 for a segment of length
zero. -/
theorem JSNum.zero_div_cases (lenSq : JSNum) (h : lenSq ≠ JSNum.nan) :
    (if lenSq ≠ JSNum.num 0 then (JSNum.num 0).div lenSq else JSNum.num (-1)) = JSNum.num 0
      ∨ (if lenSq ≠ JSNum.num 0 then (JSNum.num 0).div lenSq else JSNum.num (-1))
        = JSNum.num (-1) := by
  cases lenSq with
  | num b =>
    by_cases hb : b = 0
    · right
      simp [hb]
    · left
      have hne : JSNum.num b ≠ JSNum.num 0 := by simpa using hb
      rw [if_pos hne]
      simp [JSNum.div, jsDiv, hb, roundDouble_zero]
  | nan => exact absurd rfl h
  | posInf => left; simp [JSNum.div]
  | negInf => left; simp [JSNum.div]

theorem JSNum.lt_zero_of_one_lt (p : JSNum) (h : (JSNum.num 1).lt p = true) :
    p.lt (JSNum.num 0) = false := by
  cases p with
  | num q =>
    simp only [JSNum.lt, decide_eq_true_eq] at h
    simp only [JSNum.lt, decide_eq_false_iff_not, not_lt]
    linarith
  | nan => rfl
  | posInf => rfl
  | negInf => simp [JSNum.lt] at h

/-- In binary64 the start of a segment is at distance 0 from it, when the start is made of
binary64 numbers and the two coordinate differences of the segment are finite. -/
theorem pointToLineDistanceDouble_start (x1 y1 x2 y2 c d : ℚ)
    (hx1 : roundDouble x1 = JSNum.num x1) (hy1 : roundDouble y1 = JSNum.num y1)
    (hC : (JSNum.num x2).sub (JSNum.num x1) = JSNum.num c)
    (hD : (JSNum.num y2).sub (JSNum.num y1) = JSNum.num d) :
    (pointToLineDistanceDouble x1 y1 x1 y1 x2 y2).radicand = JSNum.num 0 := by
  have hparam : projectionParamDouble x1 y1 x1 y1 x2 y2 = JSNum.num 0
      ∨ projectionParamDouble x1 y1 x1 y1 x2 y2 = JSNum.num (-1) := by
    unfold projectionParamDouble
    simp only [JSNum.sub_self_num, hC, hD, JSNum.zero_mul_num, JSNum.zero_add_zero]
    exact JSNum.zero_div_cases _ (JSNum.add_squares_ne_nan c d)
  unfold pointToLineDistanceDouble
  rcases hparam with hp | hp
  · have h0 : (JSNum.num 0).lt (JSNum.num 0) = false := by simp [JSNum.lt]
    have h1 : (JSNum.num 1).lt (JSNum.num 0) = false := by simp [JSNum.lt]
    simp only [hp, hC, hD, h0, h1, JSNum.zero_mul_num, JSNum.add_num_zero x1 hx1,
      JSNum.add_num_zero y1 hy1, JSNum.sub_self_num, JSNum.zero_add_zero]
    simp [JSNum.sub_self_num, JSNum.zero_mul_num, JSNum.zero_add_zero]
  · have h0 : (JSNum.num (-1)).lt (JSNum.num 0) = true := by simp [JSNum.lt]
    simp only [hp, h0, JSNum.sub_self_num, JSNum.zero_mul_num, JSNum.zero_add_zero]
    simp [JSNum.sub_self_num, JSNum.zero_mul_num, JSNum.zero_add_zero]

/-- C14, as stated, fails in binary64: the point (15, 15) is `start + (15/22) (end - start)`
on the segment from (0, 0) to (22, 22), but the parameter 660 / 968 is rounded, the
projected point misses 15 by `2 ^ -49` in each coordinate, the radicand is `2 ^ -97` and
the value returned is `Math.sqrt(2 ^ -97) * 111000`, about 2.788e-10, not 0. -/
theorem pointToLineDistanceDouble_on_segment_nonzero :
    (15 : ℚ) = 0 + 15 / 22 * (22 - 0)
      ∧ (0 : ℚ) ≤ 15 / 22 ∧ (15 / 22 : ℚ) ≤ 1
      ∧ (pointToLineDistance 15 15 0 0 22 22).radicand = 0
      ∧ (pointToLineDistanceDouble 15 15 0 0 22 22).radicand = JSNum.num (pow2 (-97))
      ∧ (pointToLineDistanceDouble 15 15 0 0 22 22).isZero = false := by
  decide!

/-- C14, amended. In binary64, as the code computes: `pointToLineDistance` returns 0 at
the start of the segment (a start made of binary64 numbers, finite coordinate
differences); when the computed projection parameter is below 0 it returns 111000 times
the planar distance to the start, and when it is above 1, 111000 times the planar
distance to the end, each operation rounded. Without rounding it returns 0 for every point
`start + t (end - start)` with `t` in [0, 1], and the endpoint taken outside [0, 1] is the
nearer one. -/
theorem pointToLineDistance_segment_cases (px py x1 y1 x2 y2 : ℚ) :
    (∀ c d, roundDouble x1 = JSNum.num x1 → roundDouble y1 = JSNum.num y1 →
        (JSNum.num x2).sub (JSNum.num x1) = JSNum.num c →
        (JSNum.num y2).sub (JSNum.num y1) = JSNum.num d →
        (pointToLineDistanceDouble x1 y1 x1 y1 x2 y2).isZero = true)
      ∧ ((projectionParamDouble px py x1 y1 x2 y2).lt (JSNum.num 0) = true →
          (pointToLineDistanceDouble px py x1 y1 x2 y2).radicand
            = planarDistSqDouble px py x1 y1)
      ∧ ((JSNum.num 1).lt (projectionParamDouble px py x1 y1 x2 y2) = true →
          (pointToLineDistanceDouble px py x1 y1 x2 y2).radicand
            = planarDistSqDouble px py x2 y2)
      ∧ (∀ t : ℚ, 0 ≤ t → t ≤ 1 → px = x1 + t * (x2 - x1) → py = y1 + t * (y2 - y1) →
          (pointToLineDistance px py x1 y1 x2 y2).radicand = 0 ∧
          (pointToLineDistance px py x1 y1 x2 y2).HasValue 0)
      ∧ (projectionParam px py x1 y1 x2 y2 < 0 →
          (pointToLineDistance px py x1 y1 x2 y2).radicand = planarDistSq px py x1 y1 ∧
          (pointToLineDistance px py x1 y1 x2 y2).HasValue
            (111000 * Real.sqrt ((planarDistSq px py x1 y1 : ℚ) : ℝ)) ∧
          planarDistSq px py x1 y1 ≤ planarDistSq px py x2 y2)
      ∧ (1 < projectionParam px py x1 y1 x2 y2 →
          (pointToLineDistance px py x1 y1 x2 y2).radicand = planarDistSq px py x2 y2 ∧
          (pointToLineDistance px py x1 y1 x2 y2).HasValue
            (111000 * Real.sqrt ((planarDistSq px py x2 y2 : ℚ) : ℝ)) ∧
          planarDistSq px py x2 y2 ≤ planarDistSq px py x1 y1) := by
  obtain ⟨e1, e2, e3⟩ := pointToLineDistance_exact_cases px py x1 y1 x2 y2
  refine ⟨?_, ?_, ?_, e1, e2, e3⟩
  · intro c d hx1 hy1 hC hD
    simp [MetersDouble.isZero, pointToLineDistanceDouble_start x1 y1 x2 y2 c d hx1 hy1 hC hD]
  · intro hlt
    simp only [pointToLineDistanceDouble, planarDistSqDouble, hlt, if_true]
  · intro hgt
    have hlt := JSNum.lt_zero_of_one_lt _ hgt
    simp only [pointToLineDistanceDouble, planarDistSqDouble, hlt, hgt, if_true]
    simp

/-- Witness for the amended C14 on the segment from (0, 0) to (22, 22) in binary64: the
start (0, 0) is at distance 0, the point (-1, 0) projects below 0 and the point (30, 30)
above 1; and without rounding the point (15, 15) is at distance 0. -/
theorem pointToLineDistance_segment_cases_witness :
    (pointToLineDistanceDouble 0 0 0 0 22 22).isZero = true
      ∧ (pointToLineDistanceDouble (-1) 0 0 0 22 22).radicand = planarDistSqDouble (-1) 0 0 0
      ∧ (pointToLineDistanceDouble 30 30 0 0 22 22).radicand = planarDistSqDouble 30 30 22 22
      ∧ ((pointToLineDistance 15 15 0 0 22 22).radicand = 0 ∧
          (pointToLineDistance 15 15 0 0 22 22).HasValue 0)
      ∧ (pointToLineDistance (-1) 0 0 0 22 22).radicand = planarDistSq (-1) 0 0 0
      ∧ (pointToLineDistance 30 30 0 0 22 22).radicand = planarDistSq 30 30 22 22 :=
  ⟨(pointToLineDistance_segment_cases 0 0 0 0 22 22).1 22 22 (by decide!) (by decide!)
      (by decide!) (by decide!),
   (pointToLineDistance_segment_cases (-1) 0 0 0 22 22).2.1 (by decide!),
   (pointToLineDistance_segment_cases 30 30 0 0 22 22).2.2.1 (by decide!),
   (pointToLineDistance_segment_cases 15 15 0 0 22 22).2.2.2.1 (15 / 22) (by norm_num)
      (by norm_num) (by norm_num) (by norm_num),
   ((pointToLineDistance_segment_cases (-1) 0 0 0 22 22).2.2.2.2.1 (by decide!)).1,
   ((pointToLineDistance_segment_cases 30 30 0 0 22 22).2.2.2.2.2 (by decide!)).1⟩

theorem leBuffer_mono (m : Meters) (b1 b2 : ℚ) (h : b1 ≤ b2)
    (h1 : m.leBuffer b1 = true) : m.leBuffer b2 = true := by
  unfold Meters.leBuffer at h1 ⊢
  simp only [Bool.and_eq_true, decide_eq_true_eq] at h1 ⊢
  obtain ⟨h0, hle⟩ := h1
  exact ⟨le_trans h0 h, le_trans hle (pow_le_pow_left₀ h0 h 2)⟩

/-- C15: the corridor test is monotonic in the buffer: a point that is in the corridor
for a buffer is in the corridor for every larger buffer. -/
theorem isPointInCorridor_mono (point : GeoPoint) (routePolyline : List PolyPoint)
    (b1 b2 : ℚ) (h : b1 ≤ b2)
    (h1 : isPointInCorridor point routePolyline b1 = true) :
    isPointInCorridor point routePolyline b2 = true := by
  unfold isPointInCorridor at h1 ⊢
  cases hlat : point.latitude with
  | none => simp [hlat] at h1
  | some px =>
    cases hlon : point.longitude with
    | none => simp [hlat, hlon] at h1
    | some py =>
      simp only [hlat, hlon] at h1 ⊢
      cases hloop : corridorLoop px py routePolyline none with
      | none => simp [hloop] at h1
      | some m =>
        simp only [hloop] at h1 ⊢
        exact leBuffer_mono m b1 b2 h h1

/-- Witness for C15: the start of route A is in its corridor for the buffer 25, hence for
the buffer 125/2. -/
theorem isPointInCorridor_mono_witness :
    isPointInCorridor { latitude := some 1, longitude := some 1 }
      exampleRouteA.approvedRoutes0.polyline (125 / 2) = true :=
  isPointInCorridor_mono { latitude := some 1, longitude := some 1 }
    exampleRouteA.approvedRoutes0.polyline 25 (125 / 2) (by norm_num) (by decide!)

/-! ## determineVerdict and the pipeline: further properties -/

/-- C17: the score returned by `determineVerdict` is an integer between 0 and 100; the
three deductions take at most 80 points, so it is in fact at least 20. -/
theorem determineVerdict_score_range (routeCheck : RouteCheck) (distanceCheck : DistanceCheck)
    (penalty : Penalty) :
    0 ≤ (determineVerdict routeCheck distanceCheck penalty).score
      ∧ (determineVerdict routeCheck distanceCheck penalty).score ≤ 100
      ∧ 20 ≤ (determineVerdict routeCheck distanceCheck penalty).score := by
  have hs : (determineVerdict routeCheck distanceCheck penalty).score =
      (verdictBeforeFinal routeCheck distanceCheck penalty).2 := by
    simp only [determineVerdict, verdictFinalStep]
    split_ifs <;> rfl
  rw [hs]
  simp only [verdictBeforeFinal, verdictPenaltyStep, verdictDistanceStep, verdictRouteStep]
  cases routeCheck.passed <;> cases distanceCheck.passed <;>
    by_cases h2 : penalty.totalPenalty > 200 <;>
    by_cases h1 : penalty.totalPenalty > 100 <;> simp [h1, h2]

theorem calculatePenalty_totalPenalty (violationsCount : Int) (maxSpeed speedLimit : ℚ)
    (routeCheck : RouteCheck) :
    (calculatePenalty violationsCount maxSpeed speedLimit (some routeCheck)).totalPenalty =
      (if violationsCount > 0 then violationsCount * 50 else 0)
        + (if maxSpeed > 35 then 200 else 0)
        + (if routeCheck.passed = false then 100 else 0) := by
  simp only [calculatePenalty, penaltySpeedStep, penaltySeriousStep, penaltyRouteStep]
  by_cases hv : violationsCount > 0 <;> by_cases hm : maxSpeed > 35 <;>
    cases routeCheck.passed <;> simp [hv, hm]

/-- C19: in the pipeline, where the penalty is computed by `calculatePenalty` from the
route check that is also passed to `determineVerdict`, the verdict is approved exactly
when both checks passed, there are at most 2 violations and the maximum speed is at most
35; and it is approved exactly when the score is 100. -/
theorem pipeline_approved_iff (violationsCount : Int) (maxSpeed speedLimit : ℚ)
    (routeCheck : RouteCheck) (distanceCheck : DistanceCheck) :
    ((determineVerdict routeCheck distanceCheck
          (calculatePenalty violationsCount maxSpeed speedLimit (some routeCheck))).verdict
          = VerdictLabel.approved ↔
        routeCheck.passed = true ∧ distanceCheck.passed = true ∧ violationsCount ≤ 2 ∧
          maxSpeed ≤ 35)
      ∧ ((determineVerdict routeCheck distanceCheck
          (calculatePenalty violationsCount maxSpeed speedLimit (some routeCheck))).verdict
          = VerdictLabel.approved ↔
        (determineVerdict routeCheck distanceCheck
          (calculatePenalty violationsCount maxSpeed speedLimit (some routeCheck))).score
          = 100) := by
  have hp := calculatePenalty_totalPenalty violationsCount maxSpeed speedLimit routeCheck
  simp only [determineVerdict, verdictFinalStep, verdictBeforeFinal, verdictPenaltyStep,
    verdictDistanceStep, verdictRouteStep, hp]
  by_cases hm : maxSpeed > 35
  · have hm2 : ¬ maxSpeed ≤ 35 := not_le.mpr hm
    cases routeCheck.passed <;> cases distanceCheck.passed <;>
      by_cases hv : violationsCount > 0 <;> simp [hm, hm2, hv] <;>
      split_ifs <;> first | omega | simp
  · have hm2 : maxSpeed ≤ 35 := not_lt.mp hm
    cases routeCheck.passed <;> cases distanceCheck.passed <;>
      by_cases hv : violationsCount > 0 <;> simp [hm, hm2, hv] <;>
      first
        | omega
        | (split_ifs <;> first | omega | (simp <;> omega))

/-! ## calculateDistance: properties -/

/-- C18: for a `Math` whose sine is odd and whose `sqrt` and `atan2` are exact at 0 and 1,
`calculateDistance` is symmetric in its two points and is 0 on identical points. -/
theorem calculateDistance_symm_zero (M : JSMath) (hM : M.Standard)
    (lat1 lon1 lat2 lon2 : ℚ) :
    calculateDistance M lat1 lon1 lat2 lon2 = calculateDistance M lat2 lon2 lat1 lon1
      ∧ calculateDistance M lat1 lon1 lat1 lon1 = 0 := by
  have hsin0 : M.sin 0 = 0 := by
    have h := hM.sin_neg 0
    rw [neg_zero] at h
    linarith
  refine ⟨?_, ?_⟩
  · have e1 : (lat1 - lat2) * (M.PI / 180) / 2 = -((lat2 - lat1) * (M.PI / 180) / 2) := by ring
    have e2 : (lon1 - lon2) * (M.PI / 180) / 2 = -((lon2 - lon1) * (M.PI / 180) / 2) := by ring
    have ha : M.sin ((lat1 - lat2) * (M.PI / 180) / 2) * M.sin ((lat1 - lat2) * (M.PI / 180) / 2)
          + M.cos (lat2 * (M.PI / 180)) * M.cos (lat1 * (M.PI / 180))
            * M.sin ((lon1 - lon2) * (M.PI / 180) / 2)
            * M.sin ((lon1 - lon2) * (M.PI / 180) / 2)
        = M.sin ((lat2 - lat1) * (M.PI / 180) / 2) * M.sin ((lat2 - lat1) * (M.PI / 180) / 2)
          + M.cos (lat1 * (M.PI / 180)) * M.cos (lat2 * (M.PI / 180))
            * M.sin ((lon2 - lon1) * (M.PI / 180) / 2)
            * M.sin ((lon2 - lon1) * (M.PI / 180) / 2) := by
      rw [e1, e2, hM.sin_neg, hM.sin_neg]
      ring
    simp only [calculateDistance, toRadians]
    rw [ha]
  · simp only [calculateDistance, toRadians, sub_self, zero_mul, zero_div, hsin0, mul_zero,
      zero_add, add_zero, sub_zero, hM.sqrt_zero, hM.sqrt_one, hM.atan2_zero_one]

theorem exampleMath_standard : exampleMath.Standard := by
  refine ⟨?_, ?_, ?_, ?_⟩
  · intro x
    simp only [exampleMath]
    ring
  · simp [exampleMath]
  · simp [exampleMath]
  · simp [exampleMath]

/-- Witness for C18 with the rational stand-in for `Math`. -/
theorem calculateDistance_symm_zero_witness :
    calculateDistance exampleMath 1 2 3 4 = calculateDistance exampleMath 3 4 1 2
      ∧ calculateDistance exampleMath 1 2 1 2 = 0 :=
  calculateDistance_symm_zero exampleMath exampleMath_standard 1 2 3 4

/-! ## findBestMatchingRoute: the head of the ranked list -/

theorem jsRound_mono (a b : ℚ) (h : a ≤ b) : jsRound a ≤ jsRound b := by
  unfold jsRound
  exact Int.floor_mono (by linarith)

theorem jsRound_lt_of_add_one_le (a b : ℚ) (h : a + 1 ≤ b) : jsRound a < jsRound b := by
  unfold jsRound
  have h1 : Int.floor (a + 1 / 2) + 1 ≤ Int.floor (b + 1 / 2) := by
    rw [← Int.floor_add_one]
    exact Int.floor_mono (by linarith)
  omega

/-- The scores of two routes on one trace are multiples of `100 / sampleSize`, which is
more than 1, so two different scores are at least 1 apart. -/
theorem routeScore_gap (trace : List GpsPoint) (a b : Route)
    (h : routeScore trace a < routeScore trace b) :
    routeScore trace a + 1 ≤ routeScore trace b := by
  unfold routeScore shapeMatchRatio at h ⊢
  by_cases hpos : sampleSize trace.length > 0
  · rw [if_pos hpos] at h ⊢
    rw [if_pos hpos] at h
    rw [if_pos hpos]
    have hS : (0 : ℚ) < (sampleSize trace.length : ℚ) := by exact_mod_cast hpos
    have hS30 : (sampleSize trace.length : ℚ) ≤ 30 := by
      have : sampleSize trace.length ≤ 30 := by
        unfold sampleSize
        exact min_le_right _ _
      exact_mod_cast this
    have hk : (pointsInside trace a : ℚ) < (pointsInside trace b : ℚ) := by
      have h2 := (mul_lt_mul_right (by norm_num : (0 : ℚ) < 100)).mp h
      exact (div_lt_div_iff_of_pos_right hS).mp h2
    have hk1 : (pointsInside trace a : ℚ) + 1 ≤ (pointsInside trace b : ℚ) := by
      have : pointsInside trace a < pointsInside trace b := by exact_mod_cast hk
      exact_mod_cast this
    have e1 : (pointsInside trace a : ℚ) / (sampleSize trace.length : ℚ) * 100 + 1
        = ((pointsInside trace a : ℚ) * 100 + (sampleSize trace.length : ℚ))
          / (sampleSize trace.length : ℚ) := by
      field_simp
    have e2 : (pointsInside trace b : ℚ) / (sampleSize trace.length : ℚ) * 100
        = ((pointsInside trace b : ℚ) * 100) / (sampleSize trace.length : ℚ) := by
      ring
    rw [e1, e2, div_le_div_iff_of_pos_right hS]
    linarith
  · rw [if_neg hpos] at h
    rw [if_neg hpos] at h
    exact absurd h (lt_irrefl _)

/-- The stable sort puts first an entry that beats every entry before it and is not beaten
by any entry after it. -/
theorem sortMatches_head (pre post : List MatchDetails) (d : MatchDetails)
    (hpre : ∀ c ∈ pre, c.totalScore < d.totalScore)
    (hpost : ∀ c ∈ post, c.totalScore ≤ d.totalScore) :
    ∃ rest, sortMatches (pre ++ d :: post) = d :: rest := by
  induction pre with
  | nil =>
    have hcons : sortMatches ([] ++ d :: post)
        = List.orderedInsert (fun a b => a.totalScore ≥ b.totalScore) d (sortMatches post) :=
      rfl
    rw [hcons]
    cases hs : sortMatches post with
    | nil => exact ⟨[], rfl⟩
    | cons b t =>
      have hb : b ∈ post := by
        have : b ∈ sortMatches post := by rw [hs]; exact List.mem_cons_self _ _
        exact (sortMatches_perm_sorted post).1.mem_iff.mp this
      have hge : d.totalScore ≥ b.totalScore := hpost b hb
      exact ⟨b :: t, by simp [List.orderedInsert, hge]⟩
  | cons c pre2 ih =>
    obtain ⟨rest, hrest⟩ := ih (fun x hx => hpre x (List.mem_cons_of_mem _ hx))
    have hcons : sortMatches (c :: pre2 ++ d :: post)
        = List.orderedInsert (fun a b => a.totalScore ≥ b.totalScore) c
            (sortMatches (pre2 ++ d :: post)) :=
      rfl
    rw [hcons, hrest]
    have hlt : ¬ c.totalScore ≥ d.totalScore :=
      not_le.mpr (hpre c (List.mem_cons_self _ _))
    exact ⟨List.orderedInsert (fun a b => a.totalScore ≥ b.totalScore) c rest,
      by simp [List.orderedInsert, hlt]⟩

theorem findBestMatchingRoute_allMatches (catalog : List Route)
    (startLocation endLocation : GeoPoint) (trace : List GpsPoint) (h : catalog ≠ []) :
    (findBestMatchingRoute catalog startLocation endLocation trace).allMatches
      = some (sortMatches (catalog.map (routeMatchDetails trace))) := by
  rw [findBestMatchingRoute_of_ne_nil catalog startLocation endLocation trace h]
  split_ifs <;> rfl

/-- C20: when `findBestMatchingRoute` returns a route, the first element of the ranked
list is the match details of that route, which are also the `matchDetails` returned:
the winner is chosen by the unrounded score, first seen first, and the stable sort by
the rounded `totalScore` keeps it at the head. -/
theorem findBestMatchingRoute_ranked_head (catalog : List Route)
    (startLocation endLocation : GeoPoint) (trace : List GpsPoint) (route : Route)
    (hne : catalog ≠ [])
    (h : (findBestMatchingRoute catalog startLocation endLocation trace).route = some route) :
    (findBestMatchingRoute catalog startLocation endLocation trace).matchDetails
        = some (routeMatchDetails trace route)
      ∧ ∃ rest, (findBestMatchingRoute catalog startLocation endLocation trace).allMatches
          = some (routeMatchDetails trace route :: rest) := by
  obtain ⟨_, hub, hpos, hlow⟩ :=
    findBestMatchingRoute_best catalog startLocation endLocation trace
  have h60 : 60 ≤ (findBestMatchingRoute catalog startLocation endLocation trace).score := by
    by_contra hlt
    rw [hlow (not_le.mp hlt)] at h
    exact absurd h (by simp)
  obtain ⟨x, hx, hx2⟩ := hpos (lt_of_lt_of_le (by norm_num) h60)
  obtain ⟨hroute, hdetails⟩ := hx2 h60
  have hxr : x = route := by
    have : some x = some route := by rw [← hroute, h]
    exact Option.some.inj this
  subst hxr
  refine ⟨hdetails, ?_⟩
  rw [findBestMatchingRoute_allMatches catalog startLocation endLocation trace hne]
  have hscore := (firstWithScore_some trace _ catalog x hx).2
  unfold firstWithScore at hx
  obtain ⟨_, pre, post, hcat, hpre⟩ := List.find?_eq_some.mp hx
  have hsplit : catalog.map (routeMatchDetails trace)
      = pre.map (routeMatchDetails trace)
        ++ routeMatchDetails trace x :: post.map (routeMatchDetails trace) := by
    rw [hcat, List.map_append, List.map_cons]
  have hmemPre : ∀ c ∈ pre, c ∈ catalog := by
    intro c hc
    rw [hcat]
    exact List.mem_append_left _ hc
  have hmemPost : ∀ c ∈ post, c ∈ catalog := by
    intro c hc
    rw [hcat]
    exact List.mem_append_right _ (List.mem_cons_of_mem _ hc)
  obtain ⟨rest, hrest⟩ := sortMatches_head (pre.map (routeMatchDetails trace))
    (post.map (routeMatchDetails trace)) (routeMatchDetails trace x)
    (by
      intro d hd
      obtain ⟨c, hc, rfl⟩ := List.mem_map.mp hd
      have hle := hub c (hmemPre c hc)
      have hneq : routeScore trace c
          ≠ (findBestMatchingRoute catalog startLocation endLocation trace).score := by
        simpa using hpre c hc
      have hlt : routeScore trace c < routeScore trace x := by
        rw [hscore]
        exact lt_of_le_of_ne hle hneq
      exact jsRound_lt_of_add_one_le _ _ (routeScore_gap trace c x hlt))
    (by
      intro d hd
      obtain ⟨c, hc, rfl⟩ := List.mem_map.mp hd
      have hle := hub c (hmemPost c hc)
      rw [← hscore] at hle
      exact jsRound_mono _ _ hle)
  exact ⟨rest, by rw [hsplit, hrest]⟩

/-- Witness for C20: routes A and B both score 100 on the trace (1, 1), (1, 2); route A is
returned and its match details head the ranked list. -/
theorem findBestMatchingRoute_ranked_head_witness :
    (findBestMatchingRoute [exampleRouteA, exampleRouteB] exampleLocation exampleLocation
        [gpsPoint 1 1, gpsPoint 1 2]).matchDetails
        = some (routeMatchDetails [gpsPoint 1 1, gpsPoint 1 2] exampleRouteA)
      ∧ ∃ rest, (findBestMatchingRoute [exampleRouteA, exampleRouteB] exampleLocation
          exampleLocation [gpsPoint 1 1, gpsPoint 1 2]).allMatches
          = some (routeMatchDetails [gpsPoint 1 1, gpsPoint 1 2] exampleRouteA :: rest) :=
  findBestMatchingRoute_ranked_head [exampleRouteA, exampleRouteB] exampleLocation
    exampleLocation [gpsPoint 1 1, gpsPoint 1 2] exampleRouteA (by simp) (by decide!)

end SpeedTracker
